import Mathlib

/-!
# A shallow embedding of the `mongoclient` repository layer

The Go package wraps a MongoDB collection in a generic `Repository[T]`.  Every
operation shapes its arguments, possibly runs a lifecycle hook, calls the
driver and maps the driver's answer.  `NewRepository` accepts only a `T` that is
a pointer to a struct, so the embedding is generic in the struct type `S` with
`T = *S`: a document the caller passes is a `Ptr` (nil or an address) into a
memory of structs, and a document the driver decodes is the struct behind a
fresh pointer.  The side effects are explicit:

* every driver call, cursor step and hook invocation is appended to a trace of
  `Event`s (oldest first);
* hooks change the memory and the environment, and may panic, in which case the
  operation that called them panics as well (`Outcome.panicked`);
* the driver's answers are supplied by a `Collection` record of response
  functions, which may depend on the trace so far, so a theorem that quantifies
  over the `Collection` holds for every behaviour of the store.

Go's `(value, error)` results are modelled as pairs whose second component is an
`Option GoError` (`none` is Go's `nil` error).
-/

namespace Mongoclient

/-! ## Machine integers -/

/-- Smallest `int64`. -/
def minInt64 : Int := -(2 ^ 63)

/-- Largest `int64`. -/
def maxInt64 : Int := 2 ^ 63 - 1

/-- The mathematical integers that are values of Go's `int64`. -/
def isInt64 (x : Int) : Prop := minInt64 ≤ x ∧ x ≤ maxInt64

instance (x : Int) : Decidable (isInt64 x) := by
  unfold isInt64; infer_instance

/-- Two's-complement reduction of a mathematical integer to `int64`. -/
def wrapInt64 (x : Int) : Int := (x + 2 ^ 63) % 2 ^ 64 - 2 ^ 63

/-- Go's `a - b` on `int64`. -/
def int64Sub (a b : Int) : Int := wrapInt64 (a - b)

/-- Go's `a * b` on `int64`. -/
def int64Mul (a b : Int) : Int := wrapInt64 (a * b)

/-! ## Go values of static type `any` -/

/-- A struct type, as far as reflection and the `Document` type assertion see it. -/
structure StructType where
  /-- The type's printed name, as `%T` shows it. -/
  name : String
  /-- Whether the method set of the struct type itself satisfies `Document`. -/
  implementsDocument : Bool
  /-- Whether the method set of the pointer to the struct type satisfies `Document`. -/
  ptrImplementsDocument : Bool
  deriving DecidableEq, Repr

/-- Dynamic types of the values that reach the repository as `any`. -/
inductive GoType where
  | bool
  | int
  | int64
  | float64
  | string
  /-- The type `[]any`. -/
  | sliceAny
  /-- The type `bson.M`, declared as `map[string]any`. -/
  | bsonM
  /-- The type `bson.D`, declared as a slice of `bson.E` key-value pairs. -/
  | bsonD
  /-- The unnamed type `map[string]any`. -/
  | mapStringAny
  | struct (s : StructType)
  | ptr (elem : GoType)
  deriving DecidableEq, Repr

/-- The kinds of `reflect.Kind` that occur. -/
inductive Kind where
  | Bool | Int | Int64 | Float64 | String | Slice | Map | Struct | Ptr
  deriving DecidableEq, Repr

/-- The method `reflect.Type.Kind`. -/
def GoType.Kind : GoType → Kind
  | .bool => .Bool
  | .int => .Int
  | .int64 => .Int64
  | .float64 => .Float64
  | .string => .String
  | .sliceAny => .Slice
  | .bsonM => .Map
  | .bsonD => .Slice
  | .mapStringAny => .Map
  | .struct _ => .Struct
  | .ptr _ => .Ptr

/-- The type's name as the `%T` verb prints it. -/
def GoType.String : GoType → String
  | .bool => "bool"
  | .int => "int"
  | .int64 => "int64"
  | .float64 => "float64"
  | .string => "string"
  | .sliceAny => "[]interface \x7b\x7d"
  | .bsonM => "bson.M"
  | .bsonD => "bson.D"
  | .mapStringAny => "map[string]interface \x7b\x7d"
  | .struct s => s.name
  | .ptr e => "*" ++ e.String

/-- A Go pointer to a struct: nil, or the address of a struct in memory. -/
inductive Ptr where
  | nil
  | addr (a : Nat)
  deriving DecidableEq, Repr

/-- A value held in a Go variable of type `any`.  Mappings keep their entries as
an association list; struct contents and floats are abstracted to a tag, and a
pointer is a `Ptr`, possibly nil, together with its element type. -/
inductive Value where
  /-- The nil interface value. -/
  | nil
  | bool (b : Bool)
  | int (n : Int)
  | int64 (n : Int)
  | float64 (tag : Nat)
  | string (s : String)
  | slice (xs : List Value)
  | M (m : List (String × Value))
  | D (d : List (String × Value))
  | map (m : List (String × Value))
  | struct (ty : StructType) (tag : Nat)
  | ptr (elem : GoType) (p : Ptr)

/-- The function `reflect.TypeOf`: the dynamic type, absent for the nil interface. -/
def Value.TypeOf : Value → Option GoType
  | .nil => none
  | .bool _ => some .bool
  | .int _ => some .int
  | .int64 _ => some .int64
  | .float64 _ => some .float64
  | .string _ => some .string
  | .slice _ => some .sliceAny
  | .M _ => some .bsonM
  | .D _ => some .bsonD
  | .map _ => some .mapStringAny
  | .struct ty _ => some (.struct ty)
  | .ptr e _ => some (.ptr e)

/-- The text `%T` prints for a value. -/
def Value.typeName (v : Value) : String :=
  match v.TypeOf with
  | none => "<nil>"
  | some t => t.String

/-- The type assertion `v.(Document)`: whether the dynamic type of `v` has the
three methods `SetID`, `BeforeInsert` and `BeforeUpdate`.  It looks at the type
only, so it succeeds for a nil pointer of such a type. -/
def Value.isDocument : Value → Bool
  | .struct ty _ => ty.implementsDocument
  | .ptr (.struct ty) _ => ty.ptrImplementsDocument
  | _ => false

/-! ## utils.go -/

/-- The function `isStructOrPtrToStruct` of `utils.go`. -/
def isStructOrPtrToStruct (v : Value) : Bool :=
  match v.TypeOf with
  | none => false
  | some t =>
    t.Kind == Kind.Struct ||
      (t.Kind == Kind.Ptr &&
        match t with
        | .ptr e => e.Kind == Kind.Struct
        | _ => false)

/-- The test `len(k) > 0 && k[0] == '$'` on a map key.  Go indexes the bytes of
the key; `$` is a one-byte character, so for a key that is text the first byte is
`$` exactly when the first character is. -/
def hasSigil (k : String) : Bool :=
  match k.data with
  | [] => false
  | c :: _ => c == '$'

/-- The function `isMongoOperator` of `utils.go`: the type assertion `v.(bson.M)`
succeeds only for the dynamic type `bson.M`; then the keys are searched. -/
def isMongoOperator (v : Value) : Bool :=
  match v with
  | .M m => m.any (fun kv => hasSigil kv.1)
  | _ => false

/-! ## Errors -/

/-- Go `error` values. -/
inductive GoError where
  /-- An error made by `fmt.Errorf` without a wrapped cause; `msg` is its text. -/
  | errorf (msg : String)
  /-- The error `fmt.Errorf(pfx + ": %w", cause)`. -/
  | wrapf (pfx : String) (cause : GoError)
  /-- The sentinel `mongo.ErrNoDocuments`. -/
  | ErrNoDocuments
  /-- Any other error value produced by the driver. -/
  | driver (msg : String)
  deriving DecidableEq, Repr

/-- The method `Error()`. -/
def GoError.Error : GoError → String
  | .errorf msg => msg
  | .wrapf pfx cause => pfx ++ ": " ++ cause.Error
  | .ErrNoDocuments => "mongo: no documents in result"
  | .driver msg => msg

/-- The function `errors.Unwrap`. -/
def GoError.Unwrap : GoError → Option GoError
  | .wrapf _ cause => some cause
  | _ => none

/-! ## Slices, options and driver results -/

/-- A Go slice: either `nil` or a (possibly empty) sequence of elements. -/
inductive Slice (α : Type) where
  | nil
  | of (elems : List α)
  deriving DecidableEq, Repr

/-- The builtin `len` on a slice. -/
def Slice.len {α : Type} : Slice α → Nat
  | .nil => 0
  | .of elems => elems.length

/-- The elements a `range` loop visits, in order. -/
def Slice.elems {α : Type} : Slice α → List α
  | .nil => []
  | .of elems => elems

/-- Variadic option builders the repository forwards without looking at them. -/
abbrev Opts := List Nat

/-- One setter recorded in a `FindOptionsBuilder`. -/
inductive FindSetter where
  | SetSkip (n : Int)
  | SetLimit (n : Int)
  | other (tag : Nat)
  deriving DecidableEq, Repr

/-- A `FindOptionsBuilder`: its setters in the order they were added;
`options.Find()` is the empty builder. -/
abbrev FindOptions := List FindSetter

/-- The type `options.ReturnDocument`. -/
inductive ReturnDocument where
  | Before
  | After
  deriving DecidableEq, Repr

/-- One setter recorded in a `FindOneAndUpdateOptionsBuilder`. -/
inductive FindOneAndUpdateSetter where
  | SetReturnDocument (rd : ReturnDocument)
  | SetUpsert (b : Bool)
  | other (tag : Nat)
  deriving DecidableEq, Repr

/-- A `FindOneAndUpdateOptionsBuilder`: its setters in order. -/
abbrev FindOneAndUpdateOptions := List FindOneAndUpdateSetter

/-- The struct `mongo.UpdateResult`. -/
structure UpdateResult where
  MatchedCount : Int
  ModifiedCount : Int
  UpsertedCount : Int
  UpsertedID : Value

/-- The struct `mongo.DeleteResult`. -/
structure DeleteResult where
  DeletedCount : Int
  deriving DecidableEq, Repr

/-! ## Events -/

/-- The calls the repository makes on the driver, with the arguments it passes.
A document is passed as the pointer the caller gave; `marshalled` is the struct
the driver finds behind that pointer when the call is made (`none` behind a nil
pointer). -/
inductive Call (S : Type) where
  | InsertOne (document : Ptr) (marshalled : Option S) (opts : Opts)
  | InsertMany (documents : List Ptr) (marshalled : List (Option S)) (opts : Opts)
  | FindOne (filter : Value) (opts : Opts)
  | Find (filter : Value) (opts : List FindOptions)
  | CountDocuments (filter : Value) (opts : Opts)
  | FindOneAndUpdate (filter update : Value) (opts : List FindOneAndUpdateOptions)
  | FindOneAndDelete (filter : Value) (opts : Opts)
  | UpdateOne (filter update : Value) (opts : Opts)
  | UpdateMany (filter update : Value) (opts : Opts)
  | DeleteOne (filter : Value) (opts : Opts)
  | DeleteMany (filter : Value) (opts : Opts)
  | EstimatedDocumentCount (opts : Opts)
  | Aggregate (pipeline : Value) (opts : Opts)
  | Distinct (fieldName : String) (filter : Value) (opts : Opts)
  | BulkWrite (models : List Value) (opts : Opts)
  | Watch (pipeline : Value) (opts : Opts)
  | CreateMany (indexes : List Value) (opts : Opts)
  | ListIndexes (opts : Opts)
  | StartSession (opts : Opts)

/-- What an operation does besides computing its result, in program order. -/
inductive Event (S : Type) where
  /-- The hook `BeforeInsert` was invoked on this document. -/
  | BeforeInsert (document : Ptr)
  /-- The hook `BeforeUpdate` was invoked on this update argument. -/
  | BeforeUpdate (update : Value)
  /-- A call on the driver's collection. -/
  | call (c : Call S)
  /-- The call `cursor.All`. -/
  | cursorAll
  /-- The deferred call `cursor.Close`. -/
  | cursorClose
  /-- The deferred call `session.EndSession`. -/
  | EndSession

/-- Whether an event is a call on the store. -/
def Event.isCall {S : Type} : Event S → Bool
  | .call _ => true
  | _ => false

/-- Whether an event is a hook invocation. -/
def Event.isHook {S : Type} : Event S → Bool
  | .BeforeInsert _ => true
  | .BeforeUpdate _ => true
  | _ => false

/-- Whether an event is a `Find` call on the store. -/
def Event.isFind {S : Type} : Event S → Bool
  | .call (.Find _ _) => true
  | _ => false

/-! ## The clock, identifiers and the world -/

/-- An instant of `time.Time`, as a count of nanoseconds. -/
abbrev Time := Int

/-- A `bson.ObjectID`, the twelve bytes read as a number; zero is the zero value. -/
abbrev ObjectID := Nat

/-- The environment hooks run in: the readings `time.Now()` will return and the
identifiers `bson.NewObjectID()` will return, with how many of each were taken. -/
structure Env where
  clock : Nat → Time
  ticks : Nat
  newIDs : Nat → ObjectID
  issued : Nat

/-- The call `time.Now()`. -/
def timeNow (e : Env) : Time × Env :=
  (e.clock e.ticks, { e with ticks := e.ticks + 1 })

/-- The call `bson.NewObjectID()`. -/
def NewObjectID (e : Env) : ObjectID × Env :=
  (e.newIDs e.issued, { e with issued := e.issued + 1 })

/-- The state threaded through an operation: the trace, the environment, and
the memory, which gives the struct each address holds. -/
structure World (S : Type) where
  trace : List (Event S)
  env : Env
  heap : Nat → S

/-- The struct behind a pointer, absent behind the nil pointer. -/
def World.deref {S : Type} (w : World S) : Ptr → Option S
  | .nil => none
  | .addr a => some (w.heap a)

/-- How a call of a hook ends: whether it returned (`false`: it panicked), and
the memory and the environment it left behind. -/
structure HookRun (S : Type) where
  returned : Bool
  heap : Nat → S
  env : Env

/-- How a call of a repository method ends: it returns its results, or it
panics. -/
inductive Outcome (α : Type) where
  | returned (a : α)
  | panicked

/-- The error a method returned, if it returned one. -/
def Outcome.error {α : Type} : Outcome (α × Option GoError) → Option GoError
  | .returned a => a.2
  | .panicked => none

/-- Append one event to the trace. -/
def World.emit {S : Type} (w : World S) (e : Event S) : World S :=
  { w with trace := w.trace ++ [e] }

/-- The store calls of a trace, in order. -/
def storeCalls {S : Type} (tr : List (Event S)) : List (Event S) :=
  tr.filter Event.isCall

/-- The hook invocations of a trace, in order. -/
def hookCalls {S : Type} (tr : List (Event S)) : List (Event S) :=
  tr.filter Event.isHook

/-! ## The driver -/

/-- A `*mongo.Cursor`, as far as the repository uses it: the outcome of
`cursor.All`, decoding every remaining document into a slice. -/
structure Cursor (α : Type) where
  All : Except GoError (Slice α)

/-- A `*mongo.Session`: how `WithTransaction` runs a unit of work. -/
structure Session (S : Type) where
  WithTransaction :
    (World S → Option GoError × World S) → World S → Option GoError × World S

/-- The behaviour of the `*mongo.Collection` the repository is bound to.  Each
field answers one driver method from the trace so far and the arguments; the
answer is `Except.error` exactly when the driver returns a non-nil error.  The
single-result methods (`FindOne`, `FindOneAndUpdate`, `FindOneAndDelete`,
`Distinct`) are answered together with the `Decode` that follows them.  An
insert is answered from the structs the driver finds behind the pointers it is
given. -/
structure Collection (S : Type) where
  InsertOne : List (Event S) → Option S → Opts → Except GoError Value
  InsertMany :
    List (Event S) → List (Option S) → Opts → Except GoError (Slice Value)
  FindOne : List (Event S) → Value → Opts → Except GoError S
  Find : List (Event S) → Value → List FindOptions → Except GoError (Cursor S)
  CountDocuments : List (Event S) → Value → Opts → Except GoError Int
  FindOneAndUpdate :
    List (Event S) → Value → Value → List FindOneAndUpdateOptions → Except GoError S
  FindOneAndDelete : List (Event S) → Value → Opts → Except GoError S
  UpdateOne : List (Event S) → Value → Value → Opts → Except GoError UpdateResult
  UpdateMany : List (Event S) → Value → Value → Opts → Except GoError UpdateResult
  DeleteOne : List (Event S) → Value → Opts → Except GoError DeleteResult
  DeleteMany : List (Event S) → Value → Opts → Except GoError DeleteResult
  EstimatedDocumentCount : List (Event S) → Opts → Except GoError Int
  Aggregate : List (Event S) → Value → Opts → Except GoError (Cursor Value)
  AggregateTyped : List (Event S) → Value → Opts → Except GoError (Cursor S)
  Distinct : List (Event S) → String → Value → Opts → Except GoError (Slice Value)
  BulkWrite : List (Event S) → List Value → Opts → Except GoError Value
  Watch : List (Event S) → Value → Opts → Except GoError Value
  CreateMany : List (Event S) → List Value → Opts → Except GoError (List String)
  ListIndexes : List (Event S) → Opts → Except GoError (Cursor Value)
  StartSession : List (Event S) → Opts → Except GoError (Session S)

/-! ## database.go -/

/-- The methods of the interface `Document` of the type `T = *S`.  Each is
called on a pointer, which may be nil, and is user code: it may change the
memory and the environment, and it may panic. -/
structure Document (S : Type) where
  SetID : ObjectID → Ptr → (Nat → S) → Env → HookRun S
  BeforeInsert : Ptr → (Nat → S) → Env → HookRun S
  BeforeUpdate : Ptr → (Nat → S) → Env → HookRun S

/-- What the generic code knows of its type parameter `T`, a pointer to the
struct type `S`.  The zero value `var zero T` is the nil pointer. -/
structure TypeParam (S : Type) where
  /-- The type assertion `any(document).(Document)`; it depends on the type only. -/
  asDocument : Option (Document S)
  /-- The type assertion `any(document).(IIndex)` on the zero value: `none` when
  `T` has no `Indexes` method, and otherwise what the call `Indexes()` on the nil
  pointer yields, `none` again when that call panics. -/
  asIIndex : Option (Option (List Value))
  /-- The text `%T` prints for a value of type `T`. -/
  typeName : String

/-- The `BeforeUpdate` methods of the program's types, as the type assertion
`update.(Document)` reaches them from an update argument.  They are user code
and may panic. -/
structure Methods (S : Type) where
  BeforeUpdate : Value → (Nat → S) → Env → HookRun S

/-- The struct `Repository[T]`. -/
structure Repository (S : Type) where
  collection : Collection S

/-! ## crud.go -/

/-- The statement `if hook, ok := any(document).(Document); ok { hook.BeforeInsert() }`.
The first component tells whether control comes back (`false`: the hook
panicked). -/
def runBeforeInsert {S : Type} (tp : TypeParam S) (document : Ptr) (w : World S) :
    Bool × World S :=
  match tp.asDocument with
  | some hook =>
    let run := hook.BeforeInsert document w.heap w.env
    (run.returned,
      { trace := w.trace ++ [Event.BeforeInsert document], env := run.env,
        heap := run.heap })
  | none => (true, w)

/-- The method `InsertOne`. -/
def Repository.InsertOne {S : Type} (tp : TypeParam S) (r : Repository S)
    (document : Ptr) (opts : Opts) (w : World S) :
    Outcome (Option S × Option GoError) × World S :=
  let hooked := runBeforeInsert tp document w
  match hooked.1 with
  | false => (.panicked, hooked.2)
  | true =>
    let w0 := hooked.2
    let marshalled := w0.deref document
    let w1 := w0.emit (.call (.InsertOne document marshalled opts))
    match r.collection.InsertOne w0.trace marshalled opts with
    | .error err => (.returned (none, some (.wrapf "failed to insert document" err)), w1)
    | .ok insertedID =>
      let filter := Value.M [("_id", insertedID)]
      let w2 := w1.emit (.call (.FindOne filter []))
      match r.collection.FindOne w1.trace filter [] with
      | .error err =>
        (.returned (none, some (.wrapf "failed to fetch inserted document" err)), w2)
      | .ok inserted => (.returned (some inserted, none), w2)

/-- The loop of `InsertMany`: run the hook on each document in turn; a hook that
panics ends the loop.  The slice `interfaces` it fills holds the same pointers
as `documents`. -/
def insertManyLoop {S : Type} (tp : TypeParam S) : List Ptr → World S → Bool × World S
  | [], w => (true, w)
  | doc :: rest, w =>
    let hooked := runBeforeInsert tp doc w
    match hooked.1 with
    | false => (false, hooked.2)
    | true => insertManyLoop tp rest hooked.2

/-- The method `InsertMany`. -/
def Repository.InsertMany {S : Type} (tp : TypeParam S) (r : Repository S)
    (documents : Slice Ptr) (opts : Opts) (w : World S) :
    Outcome (Slice Value × Option GoError) × World S :=
  if documents.len = 0 then
    (.returned (.nil, some (.errorf "no documents to insert")), w)
  else
    let looped := insertManyLoop tp documents.elems w
    match looped.1 with
    | false => (.panicked, looped.2)
    | true =>
      let interfaces := documents.elems
      let w0 := looped.2
      let marshalled := interfaces.map w0.deref
      let w1 := w0.emit (.call (.InsertMany interfaces marshalled opts))
      match r.collection.InsertMany w0.trace marshalled opts with
      | .error err => (.returned (.nil, some (.wrapf "failed to insert documents" err)), w1)
      | .ok insertedIDs => (.returned (insertedIDs, none), w1)

/-- The statement `if filter == nil { filter = bson.M{} }`. -/
def defaultFilter : Value → Value
  | .nil => .M []
  | filter => filter

/-- The method `FindOne`.  Its `return result, ....Decode(&result)` yields the
decoded document when the decode succeeds and the zero value, the nil pointer,
otherwise. -/
def Repository.FindOne {S : Type} (r : Repository S)
    (filter : Value) (opts : Opts) (w : World S) :
    (Option S × Option GoError) × World S :=
  let filter := defaultFilter filter
  let w1 := w.emit (.call (.FindOne filter opts))
  match r.collection.FindOne w.trace filter opts with
  | .error err => ((none, some err), w1)
  | .ok result => ((some result, none), w1)

/-- The method `Find`. -/
def Repository.Find {S : Type} (r : Repository S)
    (filter : Value) (opts : List FindOptions) (w : World S) :
    (Slice S × Option GoError) × World S :=
  let filter := defaultFilter filter
  let w1 := w.emit (.call (.Find filter opts))
  match r.collection.Find w.trace filter opts with
  | .error err => ((.nil, some (.wrapf "failed to execute find" err)), w1)
  | .ok cursor =>
    let w2 := w1.emit .cursorAll
    match cursor.All with
    | .error err =>
      ((.nil, some (.wrapf "failed to decode results" err)), w2.emit .cursorClose)
    | .ok results => ((results, none), w2.emit .cursorClose)

/-- The method `FindDecoded`. -/
def Repository.FindDecoded {S : Type} (r : Repository S)
    (filter : Value) (opts : List FindOptions) (w : World S) :
    (Slice S × Option GoError) × World S :=
  let filter := defaultFilter filter
  let w1 := w.emit (.call (.Find filter opts))
  match r.collection.Find w.trace filter opts with
  | .error err => ((.nil, some (.wrapf "failed to execute find" err)), w1)
  | .ok cursor =>
    let w2 := w1.emit .cursorAll
    match cursor.All with
    | .error err =>
      ((.nil, some (.wrapf "failed to decode results" err)), w2.emit .cursorClose)
    | .ok results => ((results, none), w2.emit .cursorClose)

/-- The method `FindPaginated`. -/
def Repository.FindPaginated {S : Type} (r : Repository S)
    (filter : Value) (page pageSize : Int) (w : World S) :
    (Slice S × Option GoError) × World S :=
  if page < 1 then
    ((.nil, some (.errorf "invalid page: must be >= 1")), w)
  else if pageSize < 1 then
    ((.nil, some (.errorf "invalid pageSize: must be >= 1")), w)
  else
    let opts : FindOptions := []
    let opts := opts ++ [FindSetter.SetSkip (int64Mul (int64Sub page 1) pageSize)]
    let opts := opts ++ [FindSetter.SetLimit pageSize]
    r.FindDecoded filter [opts] w

/-- The method `FindPaginatedWithTotal`. -/
def Repository.FindPaginatedWithTotal {S : Type} (r : Repository S)
    (filter : Value) (page pageSize : Int) (w : World S) :
    (Slice S × Int × Option GoError) × World S :=
  let w1 := w.emit (.call (.CountDocuments filter []))
  match r.collection.CountDocuments w.trace filter [] with
  | .error err => ((.nil, 0, some (.wrapf "failed to count documents" err)), w1)
  | .ok total =>
    let found := r.FindPaginated filter page pageSize w1
    match found.1.2 with
    | some err => ((.nil, 0, some err), found.2)
    | none => ((found.1.1, total, none), found.2)

/-- The method `FindDecodedWithTotal`. -/
def Repository.FindDecodedWithTotal {S : Type} (r : Repository S)
    (filter : Value) (opts : List FindOptions) (w : World S) :
    (Slice S × Int × Option GoError) × World S :=
  let w1 := w.emit (.call (.CountDocuments filter []))
  match r.collection.CountDocuments w.trace filter [] with
  | .error err => ((.nil, 0, some (.wrapf "failed to count documents" err)), w1)
  | .ok total =>
    let found := r.FindDecoded filter opts w1
    match found.1.2 with
    | some err => ((.nil, 0, some err), found.2)
    | none => ((found.1.1, total, none), found.2)

/-- The method `FindByID`. -/
def Repository.FindByID {S : Type} (r : Repository S)
    (id : Value) (opts : Opts) (w : World S) : (Option S × Option GoError) × World S :=
  r.FindOne (.M [("_id", id)]) opts w

/-- The statement `if hook, ok := update.(Document); ok { hook.BeforeUpdate() }`.
The first component tells whether control comes back (`false`: the hook
panicked). -/
def runBeforeUpdate {S : Type} (ms : Methods S) (update : Value) (w : World S) :
    Bool × World S :=
  if update.isDocument then
    let run := ms.BeforeUpdate update w.heap w.env
    (run.returned,
      { trace := w.trace ++ [Event.BeforeUpdate update], env := run.env,
        heap := run.heap })
  else
    (true, w)

/-- What the `switch` on the update argument leads to. -/
inductive Shaped (S : Type) where
  /-- Control reaches the store call with this update document. -/
  | proceed (update : Value) (w : World S)
  /-- The `default` branch returns this error. -/
  | reject (err : GoError)
  /-- The hook panicked. -/
  | panic (w : World S)

/-- The `switch` statement that `FindOneAndUpdate`, `UpdateOne` and `UpdateMany`
each open with. -/
def shapeUpdate {S : Type} (ms : Methods S) (update : Value) (w : World S) : Shaped S :=
  if isMongoOperator update then
    .proceed update w
  else if isStructOrPtrToStruct update then
    let hooked := runBeforeUpdate ms update w
    match hooked.1 with
    | false => .panic hooked.2
    | true => .proceed (.M [("$set", update)]) hooked.2
  else
    .reject (.errorf ("unsupported update type: " ++ update.typeName))

/-- The method `FindOneAndUpdate`. -/
def Repository.FindOneAndUpdate {S : Type} (ms : Methods S) (r : Repository S)
    (filter update : Value) (opts : List FindOneAndUpdateOptions) (w : World S) :
    Outcome (Option S × Option GoError) × World S :=
  match shapeUpdate ms update w with
  | .reject err => (.returned (none, some err), w)
  | .panic w0 => (.panicked, w0)
  | .proceed update w0 =>
    let opts := opts ++ [[FindOneAndUpdateSetter.SetReturnDocument .After]]
    let w1 := w0.emit (.call (.FindOneAndUpdate filter update opts))
    match r.collection.FindOneAndUpdate w0.trace filter update opts with
    | .error err => (.returned (none, some err), w1)
    | .ok result => (.returned (some result, none), w1)

/-- The method `FindOneAndUpdateByID`. -/
def Repository.FindOneAndUpdateByID {S : Type} (ms : Methods S) (r : Repository S)
    (id update : Value) (opts : List FindOneAndUpdateOptions) (w : World S) :
    Outcome (Option S × Option GoError) × World S :=
  r.FindOneAndUpdate ms (.M [("_id", id)]) update opts w

/-- The method `FindOneAndDelete`. -/
def Repository.FindOneAndDelete {S : Type} (r : Repository S)
    (filter : Value) (opts : Opts) (w : World S) :
    (Option S × Option GoError) × World S :=
  let w1 := w.emit (.call (.FindOneAndDelete filter opts))
  match r.collection.FindOneAndDelete w.trace filter opts with
  | .error err => ((none, some err), w1)
  | .ok result => ((some result, none), w1)

/-- The method `UpdateOne`. -/
def Repository.UpdateOne {S : Type} (ms : Methods S) (r : Repository S)
    (filter update : Value) (opts : Opts) (w : World S) :
    Outcome (Option UpdateResult × Option GoError) × World S :=
  match shapeUpdate ms update w with
  | .reject err => (.returned (none, some err), w)
  | .panic w0 => (.panicked, w0)
  | .proceed update w0 =>
    let w1 := w0.emit (.call (.UpdateOne filter update opts))
    match r.collection.UpdateOne w0.trace filter update opts with
    | .error err => (.returned (none, some err), w1)
    | .ok result => (.returned (some result, none), w1)

/-- The method `UpdateByID`. -/
def Repository.UpdateByID {S : Type} (ms : Methods S) (r : Repository S)
    (id update : Value) (opts : Opts) (w : World S) :
    Outcome (Option UpdateResult × Option GoError) × World S :=
  r.UpdateOne ms (.M [("_id", id)]) update opts w

/-- The method `UpdateMany`. -/
def Repository.UpdateMany {S : Type} (ms : Methods S) (r : Repository S)
    (filter update : Value) (opts : Opts) (w : World S) :
    Outcome (Option UpdateResult × Option GoError) × World S :=
  match shapeUpdate ms update w with
  | .reject err => (.returned (none, some err), w)
  | .panic w0 => (.panicked, w0)
  | .proceed update w0 =>
    let w1 := w0.emit (.call (.UpdateMany filter update opts))
    match r.collection.UpdateMany w0.trace filter update opts with
    | .error err =>
      (.returned (none, some (.wrapf "failed to update documents" err)), w1)
    | .ok result => (.returned (some result, none), w1)

/-- The method `DeleteOne`. -/
def Repository.DeleteOne {S : Type} (r : Repository S)
    (filter : Value) (opts : Opts) (w : World S) : Option GoError × World S :=
  let w1 := w.emit (.call (.DeleteOne filter opts))
  match r.collection.DeleteOne w.trace filter opts with
  | .error err => (some (.wrapf "failed to delete document" err), w1)
  | .ok result =>
    if result.DeletedCount = 0 then
      (some .ErrNoDocuments, w1)
    else
      (none, w1)

/-- The method `DeleteByID`. -/
def Repository.DeleteByID {S : Type} (r : Repository S)
    (id : Value) (opts : Opts) (w : World S) : Option GoError × World S :=
  r.DeleteOne (.M [("_id", id)]) opts w

/-- The method `DeleteMany`. -/
def Repository.DeleteMany {S : Type} (r : Repository S)
    (filter : Value) (opts : Opts) (w : World S) : (Int × Option GoError) × World S :=
  let w1 := w.emit (.call (.DeleteMany filter opts))
  match r.collection.DeleteMany w.trace filter opts with
  | .error err => ((0, some (.wrapf "failed to delete documents" err)), w1)
  | .ok result => ((result.DeletedCount, none), w1)

/-! ## collection.go -/

/-- The method `EstimatedCount`. -/
def Repository.EstimatedCount {S : Type} (r : Repository S)
    (opts : Opts) (w : World S) : (Int × Option GoError) × World S :=
  let w1 := w.emit (.call (.EstimatedDocumentCount opts))
  match r.collection.EstimatedDocumentCount w.trace opts with
  | .error err => ((0, some (.wrapf "failed to count documents" err)), w1)
  | .ok count => ((count, none), w1)

/-- The method `CountDocuments`. -/
def Repository.CountDocuments {S : Type} (r : Repository S)
    (filter : Value) (opts : Opts) (w : World S) : (Int × Option GoError) × World S :=
  let w1 := w.emit (.call (.CountDocuments filter opts))
  match r.collection.CountDocuments w.trace filter opts with
  | .error err => ((0, some (.wrapf "failed to count documents" err)), w1)
  | .ok count => ((count, none), w1)

/-- The method `Aggregate`. -/
def Repository.Aggregate {S : Type} (r : Repository S)
    (pipeline : Value) (opts : Opts) (w : World S) :
    (Slice Value × Option GoError) × World S :=
  let w1 := w.emit (.call (.Aggregate pipeline opts))
  match r.collection.Aggregate w.trace pipeline opts with
  | .error err => ((.nil, some (.wrapf "failed to execute aggregate" err)), w1)
  | .ok cursor =>
    let w2 := w1.emit .cursorAll
    match cursor.All with
    | .error err =>
      ((.nil, some (.wrapf "failed to decode aggregate results" err)),
        w2.emit .cursorClose)
    | .ok results => ((results, none), w2.emit .cursorClose)

/-- The method `AggregateTyped`. -/
def Repository.AggregateTyped {S : Type} (r : Repository S)
    (pipeline : Value) (opts : Opts) (w : World S) :
    (Slice S × Option GoError) × World S :=
  let w1 := w.emit (.call (.Aggregate pipeline opts))
  match r.collection.AggregateTyped w.trace pipeline opts with
  | .error err => ((.nil, some (.wrapf "failed to execute aggregate" err)), w1)
  | .ok cursor =>
    let w2 := w1.emit .cursorAll
    match cursor.All with
    | .error err =>
      ((.nil, some (.wrapf "failed to decode aggregate results" err)),
        w2.emit .cursorClose)
    | .ok results => ((results, none), w2.emit .cursorClose)

/-- The method `Distinct`. -/
def Repository.Distinct {S : Type} (r : Repository S)
    (fieldName : String) (filter : Value) (opts : Opts) (w : World S) :
    (Slice Value × Option GoError) × World S :=
  let w1 := w.emit (.call (.Distinct fieldName filter opts))
  match r.collection.Distinct w.trace fieldName filter opts with
  | .error err => ((.nil, some (.wrapf "failed to find distinct values" err)), w1)
  | .ok arr => ((arr, none), w1)

/-- The method `BulkWrite`. -/
def Repository.BulkWrite {S : Type} (r : Repository S)
    (models : List Value) (opts : Opts) (w : World S) :
    (Option Value × Option GoError) × World S :=
  let w1 := w.emit (.call (.BulkWrite models opts))
  match r.collection.BulkWrite w.trace models opts with
  | .error err => ((none, some (.wrapf "failed to perform bulk write" err)), w1)
  | .ok result => ((some result, none), w1)

/-- The method `Watch`. -/
def Repository.Watch {S : Type} (r : Repository S)
    (pipeline : Value) (opts : Opts) (w : World S) :
    (Option Value × Option GoError) × World S :=
  let w1 := w.emit (.call (.Watch pipeline opts))
  match r.collection.Watch w.trace pipeline opts with
  | .error err => ((none, some (.wrapf "failed to create change stream" err)), w1)
  | .ok stream => ((some stream, none), w1)

/-! ## indexes.go -/

/-- The method `EnsureIndexesAssertType`. -/
def Repository.EnsureIndexesAssertType {S : Type} (tp : TypeParam S) (r : Repository S)
    (opts : Opts) (w : World S) : Outcome (Option GoError) × World S :=
  match tp.asIIndex with
  | none =>
    (.returned (some (.errorf ("repository type " ++ tp.typeName ++
      " does not implement IIndex interface"))), w)
  | some none => (.panicked, w)
  | some (some indexes) =>
    let w1 := w.emit (.call (.CreateMany indexes opts))
    match r.collection.CreateMany w.trace indexes opts with
    | .error err => (.returned (some (.wrapf "failed to create indexes" err)), w1)
    | .ok _ => (.returned none, w1)

/-- The method `EnsureIndexes`. -/
def Repository.EnsureIndexes {S : Type} (r : Repository S)
    (indexes : List Value) (opts : Opts) (w : World S) : Option GoError × World S :=
  let w1 := w.emit (.call (.CreateMany indexes opts))
  match r.collection.CreateMany w.trace indexes opts with
  | .error err => (some (.wrapf "failed to create indexes" err), w1)
  | .ok _ => (none, w1)

/-- The method `GetIndexes`. -/
def Repository.GetIndexes {S : Type} (r : Repository S)
    (opts : Opts) (w : World S) : (Slice Value × Option GoError) × World S :=
  let w1 := w.emit (.call (.ListIndexes opts))
  match r.collection.ListIndexes w.trace opts with
  | .error err => ((.nil, some (.wrapf "failed to list indexes" err)), w1)
  | .ok cursor =>
    let w2 := w1.emit .cursorAll
    match cursor.All with
    | .error err =>
      ((.nil, some (.wrapf "failed to decode indexes" err)), w2.emit .cursorClose)
    | .ok results => ((results, none), w2.emit .cursorClose)

/-! ## transaction.go -/

/-- The method `Transaction`. -/
def Repository.Transaction {S : Type} (r : Repository S)
    (fn : World S → Option GoError × World S) (opts : Opts) (w : World S) :
    Option GoError × World S :=
  let w1 := w.emit (.call (.StartSession opts))
  match r.collection.StartSession w.trace opts with
  | .error err => (some (.wrapf "failed to start session" err), w1)
  | .ok session =>
    let ran := session.WithTransaction fn w1
    (ran.1, ran.2.emit .EndSession)

/-! ## field.go -/

/-- The struct `BaseField`. -/
structure BaseField where
  ID : ObjectID
  CreatedAt : Time
  UpdatedAt : Time
  deriving DecidableEq, Repr

/-- The method `SetID`. -/
def BaseField.SetID (b : BaseField) (id : ObjectID) : BaseField :=
  { b with ID := id }

/-- The method `DefaultID`; `b.ID.IsZero()` is the test `b.ID = 0`. -/
def BaseField.DefaultID (b : BaseField) (e : Env) : BaseField × Env :=
  if b.ID = 0 then
    let r := NewObjectID e
    ({ b with ID := r.1 }, r.2)
  else
    (b, e)

/-- The method `DefaultCreatedAt`. -/
def BaseField.DefaultCreatedAt (b : BaseField) (e : Env) : BaseField × Env :=
  let r := timeNow e
  ({ b with CreatedAt := r.1 }, r.2)

/-- The method `DefaultUpdatedAt`. -/
def BaseField.DefaultUpdatedAt (b : BaseField) (e : Env) : BaseField × Env :=
  let r := timeNow e
  ({ b with UpdatedAt := r.1 }, r.2)

/-- The method `BeforeInsert`. -/
def BaseField.BeforeInsert (b : BaseField) (e : Env) : BaseField × Env :=
  let r1 := b.DefaultID e
  let r2 := r1.1.DefaultCreatedAt r1.2
  r2.1.DefaultUpdatedAt r2.2

/-- The method `BeforeUpdate`. -/
def BaseField.BeforeUpdate (b : BaseField) (e : Env) : BaseField × Env :=
  b.DefaultUpdatedAt e

/-- The method `Validate`. -/
def BaseField.Validate (_b : BaseField) : Option GoError := none

/-- The method `SetID` called through a pointer: the assignment `b.ID = id`
panics on a nil receiver. -/
def BaseField.ptrSetID (id : ObjectID) (p : Ptr) (heap : Nat → BaseField) (e : Env) :
    HookRun BaseField :=
  match p with
  | .nil => ⟨false, heap, e⟩
  | .addr a => ⟨true, Function.update heap a ((heap a).SetID id), e⟩

/-- The method `BeforeInsert` called through a pointer.  On a nil receiver
`DefaultID` reads `b.ID` first and panics there; otherwise the struct behind the
pointer is replaced by what the method makes of it. -/
def BaseField.ptrBeforeInsert (p : Ptr) (heap : Nat → BaseField) (e : Env) :
    HookRun BaseField :=
  match p with
  | .nil => ⟨false, heap, e⟩
  | .addr a =>
    let r := (heap a).BeforeInsert e
    ⟨true, Function.update heap a r.1, r.2⟩

/-- The method `BeforeUpdate` called through a pointer.  On a nil receiver the
assignment `b.UpdatedAt = time.Now()` takes the reading and then panics at the
store through nil. -/
def BaseField.ptrBeforeUpdate (p : Ptr) (heap : Nat → BaseField) (e : Env) :
    HookRun BaseField :=
  match p with
  | .nil => ⟨false, heap, (timeNow e).2⟩
  | .addr a =>
    let r := (heap a).BeforeUpdate e
    ⟨true, Function.update heap a r.1, r.2⟩

/-- The `Document` methods of `*BaseField`. -/
def BaseField.document : Document BaseField where
  SetID := BaseField.ptrSetID
  BeforeInsert := BaseField.ptrBeforeInsert
  BeforeUpdate := BaseField.ptrBeforeUpdate

/-- The type parameter `T = *BaseField`. -/
def baseFieldParam : TypeParam BaseField where
  asDocument := some BaseField.document
  asIIndex := none
  typeName := "*mongoclient.BaseField"

/-- The struct type `BaseField` as reflection sees it: its methods have pointer
receivers, so only `*BaseField` implements `Document`. -/
def baseFieldType : StructType where
  name := "mongoclient.BaseField"
  implementsDocument := false
  ptrImplementsDocument := true

/-- The `BeforeUpdate` methods of a program whose only `Document` type is
`*BaseField`. -/
def baseFieldMethods : Methods BaseField where
  BeforeUpdate := fun update heap e =>
    match update with
    | .ptr _ p => BaseField.ptrBeforeUpdate p heap e
    | _ => ⟨true, heap, e⟩

/-- A fresh document: no identifier and no timestamps yet. -/
def freshDoc : BaseField where
  ID := 0
  CreatedAt := 0
  UpdatedAt := 0

/-- A document that already has the identifier 7. -/
def namedDoc : BaseField where
  ID := 7
  CreatedAt := 0
  UpdatedAt := 0

instance : Inhabited BaseField := ⟨freshDoc⟩

/-! ## Sample stores and worlds -/

/-- A cursor over no documents. -/
def emptyCursor (α : Type) : Cursor α where
  All := .ok (.of [])

/-- A session that runs the unit of work once and reports its error. -/
def plainSession (S : Type) : Session S where
  WithTransaction := fun fn w => fn w

/-- A store on which every call succeeds: nothing is found, `count` documents
are counted and `deleted` documents are reported deleted; single-result reads
decode to `d`. -/
def okCollection {S : Type} (d : S) (count deleted : Int) : Collection S where
  InsertOne := fun _ _ _ => .ok (.int 1)
  InsertMany := fun _ docs _ => .ok (.of (docs.map (fun _ => Value.int 1)))
  FindOne := fun _ _ _ => .ok d
  Find := fun _ _ _ => .ok (emptyCursor S)
  CountDocuments := fun _ _ _ => .ok count
  FindOneAndUpdate := fun _ _ _ _ => .ok d
  FindOneAndDelete := fun _ _ _ => .ok d
  UpdateOne := fun _ _ _ _ => .ok ⟨1, 1, 0, .nil⟩
  UpdateMany := fun _ _ _ _ => .ok ⟨1, 1, 0, .nil⟩
  DeleteOne := fun _ _ _ => .ok ⟨deleted⟩
  DeleteMany := fun _ _ _ => .ok ⟨deleted⟩
  EstimatedDocumentCount := fun _ _ => .ok count
  Aggregate := fun _ _ _ => .ok (emptyCursor Value)
  AggregateTyped := fun _ _ _ => .ok (emptyCursor S)
  Distinct := fun _ _ _ _ => .ok (.of [])
  BulkWrite := fun _ _ _ => .ok .nil
  Watch := fun _ _ _ => .ok .nil
  CreateMany := fun _ _ _ => .ok []
  ListIndexes := fun _ _ => .ok (emptyCursor Value)
  StartSession := fun _ _ => .ok (plainSession S)

/-- A store on which every call fails with the error `e`. -/
def failingCollection (S : Type) (e : GoError) : Collection S where
  InsertOne := fun _ _ _ => .error e
  InsertMany := fun _ _ _ => .error e
  FindOne := fun _ _ _ => .error e
  Find := fun _ _ _ => .error e
  CountDocuments := fun _ _ _ => .error e
  FindOneAndUpdate := fun _ _ _ _ => .error e
  FindOneAndDelete := fun _ _ _ => .error e
  UpdateOne := fun _ _ _ _ => .error e
  UpdateMany := fun _ _ _ _ => .error e
  DeleteOne := fun _ _ _ => .error e
  DeleteMany := fun _ _ _ => .error e
  EstimatedDocumentCount := fun _ _ => .error e
  Aggregate := fun _ _ _ => .error e
  AggregateTyped := fun _ _ _ => .error e
  Distinct := fun _ _ _ _ => .error e
  BulkWrite := fun _ _ _ => .error e
  Watch := fun _ _ _ => .error e
  CreateMany := fun _ _ _ => .error e
  ListIndexes := fun _ _ => .error e
  StartSession := fun _ _ => .error e

/-- An environment whose clock advances by one nanosecond per reading. -/
def tickingEnv : Env where
  clock := fun n => n
  ticks := 0
  newIDs := fun n => n + 1
  issued := 0

/-- The world before anything happened, with the ticking clock and a memory that
holds the default struct at every address. -/
def initWorld (S : Type) [Inhabited S] : World S where
  trace := []
  env := tickingEnv
  heap := fun _ => default

/-- A world like `initWorld` whose memory holds `namedDoc` at address 1. -/
def twoDocWorld : World BaseField where
  trace := []
  env := tickingEnv
  heap := fun a => if a = 1 then namedDoc else freshDoc

/-- A repository over the all-succeeding store of `BaseField` documents. -/
def okRepo : Repository BaseField where
  collection := okCollection freshDoc 5 0

/-- A repository over a store that fails every call with a driver error. -/
def failingRepo : Repository BaseField where
  collection := failingCollection BaseField (.driver "connection reset")

/-- A repository over an all-succeeding store that reports three deletions. -/
def deletingRepo : Repository BaseField where
  collection := okCollection freshDoc 5 3

/-- A typed nil pointer `(*BaseField)(nil)` held in an `any`. -/
def nilBaseField : Value := .ptr (.struct baseFieldType) .nil

/-! ## Vocabulary of the insertion statements -/

/-- The hook invocations `InsertMany` owes a list of documents: one
`BeforeInsert` per document, in order, when the document type has the
`Document` methods, and none otherwise. -/
def owedHooks {S : Type} (tp : TypeParam S) (docs : List Ptr) : List (Event S) :=
  match tp.asDocument with
  | some _ => docs.map Event.BeforeInsert
  | none => []

/-! ## Vocabulary of the error statements -/

/-- The returned error `res` wraps the store's error `e` under the message
`pfx`: it is the value `fmt.Errorf(pfx + ": %w", e)`, which is not `e` itself,
whose text is `pfx`, a colon and the text of `e`, and from which `errors.Unwrap`
gives `e` back. -/
def Wraps (pfx : String) (e : GoError) (res : Option GoError) : Prop :=
  ∃ err, res = some err ∧ err = GoError.wrapf pfx e ∧ err ≠ e ∧
    err.Unwrap = some e ∧ err.Error = pfx ++ ": " ++ e.Error

/-! ## The driver's option merging -/

/-- The struct `options.FindOneAndUpdateOptions`: the settings the recorded
setters write.  A field is `none` until a setter has set it. -/
structure FindOneAndUpdateArgs where
  ReturnDocument : Option ReturnDocument
  Upsert : Option Bool
  deriving DecidableEq, Repr

/-- What one recorded setter does to the settings; setters of other fields leave
these two alone. -/
def FindOneAndUpdateSetter.apply (args : FindOneAndUpdateArgs) :
    FindOneAndUpdateSetter → FindOneAndUpdateArgs
  | .SetReturnDocument rd => { args with ReturnDocument := some rd }
  | .SetUpsert b => { args with Upsert := some b }
  | .other _ => args

/-- Modelled from the spec: the merging of option builders is done by the
driver, whose code is not part of this repository.  As the claim describes it,
the builders are taken in the order they were passed and the setters of each
in the order they were recorded, every setter overwriting what an earlier one
set, so the last setter of a field wins. -/
def mergeFindOneAndUpdateOptions (opts : List FindOneAndUpdateOptions) :
    FindOneAndUpdateArgs :=
  opts.foldl (fun args builder => builder.foldl FindOneAndUpdateSetter.apply args)
    ⟨none, none⟩

/-- Caller options that ask for an upsert and for the document as it was before
the update. -/
def beforeOpts : List FindOneAndUpdateOptions :=
  [[.SetUpsert true], [.SetReturnDocument .Before]]

/-! ## Arithmetic of `int64` -/

theorem wrapInt64_of_isInt64 {x : Int} (h : isInt64 x) : wrapInt64 x = x := by
  unfold isInt64 minInt64 maxInt64 at h
  unfold wrapInt64
  omega

theorem isInt64_wrapInt64 (x : Int) : isInt64 (wrapInt64 x) := by
  unfold isInt64 minInt64 maxInt64 wrapInt64
  omega

theorem int64Sub_one {page : Int} (hp : isInt64 page) (h1 : 1 ≤ page) :
    int64Sub page 1 = page - 1 := by
  unfold int64Sub
  apply wrapInt64_of_isInt64
  unfold isInt64 minInt64 maxInt64 at *
  omega

/-! ## Pagination -/

/-- The trace `FindDecoded` leaves: the events before it, one `Find` call, and
after it only cursor steps. -/
theorem FindDecoded_trace {S : Type} (r : Repository S) (filter : Value)
    (opts : List FindOptions) (w : World S) :
    ∃ added, (r.FindDecoded filter opts w).2.trace = w.trace ++ added ∧
      storeCalls added = [Event.call (Call.Find (defaultFilter filter) opts)] := by
  cases hf : r.collection.Find w.trace (defaultFilter filter) opts with
  | error err =>
    exact ⟨[Event.call (Call.Find (defaultFilter filter) opts)],
      by simp [Repository.FindDecoded, World.emit, hf],
      by simp [storeCalls, Event.isCall]⟩
  | ok cursor =>
    refine ⟨[Event.call (Call.Find (defaultFilter filter) opts), Event.cursorAll,
      Event.cursorClose], ?_, by simp [storeCalls, Event.isCall]⟩
    cases hc : cursor.All <;> simp [Repository.FindDecoded, World.emit, hf, hc]

/-- C1 (amended): for every filter and all `int64` values `page >= 1` and
`pageSize >= 1`, `FindPaginated` issues exactly one find call to the store; its
limit option is `pageSize` and its skip option is `(page-1)*pageSize` reduced to
`int64` in two's complement, which is `(page-1)*pageSize` itself whenever that
product does not exceed the largest `int64`. -/
theorem FindPaginated_issues_one_find {S : Type} (r : Repository S) (filter : Value)
    (page pageSize : Int) (w : World S)
    (hp : isInt64 page) (_hs : isInt64 pageSize) (h1 : 1 ≤ page) (h2 : 1 ≤ pageSize) :
    (∃ added, (r.FindPaginated filter page pageSize w).2.trace = w.trace ++ added ∧
      storeCalls added = [Event.call (Call.Find (defaultFilter filter)
        [[FindSetter.SetSkip (wrapInt64 ((page - 1) * pageSize)),
          FindSetter.SetLimit pageSize]])]) ∧
    ((page - 1) * pageSize ≤ maxInt64 →
      wrapInt64 ((page - 1) * pageSize) = (page - 1) * pageSize) := by
  constructor
  · have hpage : ¬ page < 1 := by omega
    have hsize : ¬ pageSize < 1 := by omega
    unfold Repository.FindPaginated
    simp only [hpage, hsize, if_false, int64Mul, int64Sub_one hp h1, List.nil_append,
      List.singleton_append]
    exact FindDecoded_trace r filter _ w
  · intro hle
    apply wrapInt64_of_isInt64
    have h0 : 0 ≤ (page - 1) * pageSize := Int.mul_nonneg (by omega) (by omega)
    unfold isInt64 minInt64
    unfold maxInt64 at hle ⊢
    omega

/-- Witness for C1: page 3 of size 10 skips 20 documents. -/
theorem FindPaginated_issues_one_find_witness :
    (∃ added, (okRepo.FindPaginated .nil 3 10 (initWorld BaseField)).2.trace =
        (initWorld BaseField).trace ++ added ∧
      storeCalls added = [Event.call (Call.Find (defaultFilter .nil)
        [[FindSetter.SetSkip (wrapInt64 ((3 - 1) * 10)), FindSetter.SetLimit 10]])]) ∧
    (((3 : Int) - 1) * 10 ≤ maxInt64 →
      wrapInt64 ((3 - 1) * 10) = (3 - 1) * 10) :=
  FindPaginated_issues_one_find okRepo .nil 3 10 (initWorld BaseField)
    (by decide) (by decide) (by decide) (by decide)

/-- C1 as stated fails: at `page = 2^62 + 1` and `pageSize = 4`, both `int64`
values that are at least 1, the product `(page-1)*pageSize` is `2^64`, and the one
find call the store receives has skip option 0, not `(page-1)*pageSize`. -/
theorem FindPaginated_skip_overflow :
    isInt64 (2 ^ 62 + 1) ∧ isInt64 4 ∧
    storeCalls (okRepo.FindPaginated .nil (2 ^ 62 + 1) 4 (initWorld BaseField)).2.trace =
      [Event.call (Call.Find (.M []) [[FindSetter.SetSkip 0, FindSetter.SetLimit 4]])] ∧
    ¬ storeCalls (okRepo.FindPaginated .nil (2 ^ 62 + 1) 4 (initWorld BaseField)).2.trace =
      [Event.call (Call.Find (.M [])
        [[FindSetter.SetSkip ((2 ^ 62 + 1 - 1) * 4), FindSetter.SetLimit 4]])] := by
  have hev :
      storeCalls (okRepo.FindPaginated .nil (2 ^ 62 + 1) 4 (initWorld BaseField)).2.trace =
        [Event.call (Call.Find (.M []) [[FindSetter.SetSkip 0, FindSetter.SetLimit 4]])] := by
    rfl
  refine ⟨by decide, by decide, hev, ?_⟩
  rw [hev]
  intro h
  injection h with h _
  injection h with h
  injection h with _ h
  injection h with h _
  injection h with h _
  injection h with h
  revert h
  decide

/-- C2: for every filter and all `page`, `pageSize` with `page < 1` or
`pageSize < 1`, `FindPaginated` returns a validation error and a nil result and
leaves the world as it was: no store call is issued. -/
theorem FindPaginated_rejects_bad_page {S : Type} (r : Repository S) (filter : Value)
    (page pageSize : Int) (w : World S) (h : page < 1 ∨ pageSize < 1) :
    r.FindPaginated filter page pageSize w =
      ((Slice.nil, some (GoError.errorf
        (if page < 1 then "invalid page: must be >= 1"
         else "invalid pageSize: must be >= 1"))), w) := by
  unfold Repository.FindPaginated
  by_cases hp : page < 1
  · simp [hp]
  · have hs : pageSize < 1 := h.resolve_left hp
    simp [hp, hs]

/-- Witness for C2: page 0 with page size 10. -/
theorem FindPaginated_rejects_bad_page_witness :
    ((0 : Int) < 1 ∨ (10 : Int) < 1) ∧
    okRepo.FindPaginated .nil 0 10 (initWorld BaseField) =
      ((Slice.nil, some (GoError.errorf
        (if (0 : Int) < 1 then "invalid page: must be >= 1"
         else "invalid pageSize: must be >= 1"))), initWorld BaseField) :=
  ⟨by decide, FindPaginated_rejects_bad_page okRepo .nil 0 10 (initWorld BaseField)
    (by decide)⟩

/-- The two rejections evaluated: page 0, and page size -3 on page 2, on a store
that would answer every call. -/
theorem FindPaginated_rejections_evaluated :
    okRepo.FindPaginated .nil 0 10 (initWorld BaseField) =
      ((Slice.nil, some (GoError.errorf "invalid page: must be >= 1")),
        initWorld BaseField) ∧
    okRepo.FindPaginated .nil 2 (-3) (initWorld BaseField) =
      ((Slice.nil, some (GoError.errorf "invalid pageSize: must be >= 1")),
        initWorld BaseField) :=
  ⟨rfl, rfl⟩

/-- C3 (the code at the failing input): with the filter `bson.M{}`, `page = 0` and
`pageSize = 10`, `FindPaginatedWithTotal` first issues the count call to the
store and only then reports the page validation error; when the count itself
fails, the error it returns is the wrapped count error and not the validation
error. -/
theorem FindPaginatedWithTotal_counts_before_validating :
    (okRepo.FindPaginatedWithTotal (.M []) 0 10 (initWorld BaseField)).1 =
      (Slice.nil, 0, some (GoError.errorf "invalid page: must be >= 1")) ∧
    (okRepo.FindPaginatedWithTotal (.M []) 0 10 (initWorld BaseField)).2.trace =
      [Event.call (Call.CountDocuments (.M []) [])] ∧
    (failingRepo.FindPaginatedWithTotal (.M []) 0 10 (initWorld BaseField)).1 =
      (Slice.nil, 0, some (GoError.wrapf "failed to count documents"
        (GoError.driver "connection reset"))) ∧
    (failingRepo.FindPaginatedWithTotal (.M []) 0 10 (initWorld BaseField)).2.trace =
      [Event.call (Call.CountDocuments (.M []) [])] :=
  ⟨rfl, rfl, rfl, rfl⟩

/-! ## Deletion -/

/-- C7: when the store's delete call succeeds having deleted zero documents,
`DeleteOne` returns `mongo.ErrNoDocuments` and `DeleteMany` returns count 0 with
no error; when it succeeds having deleted `n > 0` documents, `DeleteOne` returns
no error and `DeleteMany` returns `n` with no error. -/
theorem delete_zero_and_positive {S : Type} (r : Repository S) (filter : Value)
    (opts : Opts) (w : World S) (n : Int) :
    (r.collection.DeleteOne w.trace filter opts = .ok ⟨0⟩ →
        (r.DeleteOne filter opts w).1 = some GoError.ErrNoDocuments) ∧
      (r.collection.DeleteMany w.trace filter opts = .ok ⟨0⟩ →
        (r.DeleteMany filter opts w).1 = (0, none)) ∧
      (0 < n → r.collection.DeleteOne w.trace filter opts = .ok ⟨n⟩ →
        (r.DeleteOne filter opts w).1 = none) ∧
      (0 < n → r.collection.DeleteMany w.trace filter opts = .ok ⟨n⟩ →
        (r.DeleteMany filter opts w).1 = (n, none)) := by
  refine ⟨?_, ?_, ?_, ?_⟩
  · intro h
    simp [Repository.DeleteOne, h]
  · intro h
    simp [Repository.DeleteMany, h]
  · intro hn h
    have hne : n ≠ 0 := by omega
    simp [Repository.DeleteOne, h, hne]
  · intro _ h
    simp [Repository.DeleteMany, h]

/-- Witness for C7: a store reporting zero deletions and one reporting three. -/
theorem delete_zero_and_positive_witness :
    (okRepo.DeleteOne (.M []) [] (initWorld BaseField)).1 = some GoError.ErrNoDocuments ∧
    (okRepo.DeleteMany (.M []) [] (initWorld BaseField)).1 = (0, none) ∧
    (0 : Int) < 3 ∧
    (deletingRepo.DeleteOne (.M []) [] (initWorld BaseField)).1 = none ∧
    (deletingRepo.DeleteMany (.M []) [] (initWorld BaseField)).1 = (3, none) :=
  ⟨(delete_zero_and_positive okRepo (.M []) [] (initWorld BaseField) 0).1 rfl,
    (delete_zero_and_positive okRepo (.M []) [] (initWorld BaseField) 0).2.1 rfl,
    by decide,
    (delete_zero_and_positive deletingRepo (.M []) [] (initWorld BaseField) 3).2.2.1
      (by decide) rfl,
    (delete_zero_and_positive deletingRepo (.M []) [] (initWorld BaseField) 3).2.2.2
      (by decide) rfl⟩

/-! ## The update-shape classifier -/

theorem isMongoOperator_M_of_sigil (m : List (String × Value))
    (h : ∃ kv ∈ m, hasSigil kv.1 = true) : isMongoOperator (.M m) = true := by
  simpa [isMongoOperator, List.any_eq_true] using h

theorem isMongoOperator_of_struct {update : Value}
    (h : (∃ ty tag, update = .struct ty tag) ∨
      (∃ ty p, update = .ptr (.struct ty) p)) :
    isMongoOperator update = false := by
  rcases h with ⟨ty, tag, rfl⟩ | ⟨ty, p, rfl⟩ <;> rfl

theorem isStructOrPtrToStruct_of_struct {update : Value}
    (h : (∃ ty tag, update = .struct ty tag) ∨
      (∃ ty p, update = .ptr (.struct ty) p)) :
    isStructOrPtrToStruct update = true := by
  rcases h with ⟨ty, tag, rfl⟩ | ⟨ty, p, rfl⟩ <;> rfl

theorem runBeforeUpdate_trace {S : Type} (ms : Methods S) (update : Value) (w : World S) :
    (runBeforeUpdate ms update w).2.trace =
      w.trace ++ (if update.isDocument then [Event.BeforeUpdate update] else []) := by
  unfold runBeforeUpdate
  cases update.isDocument <;> simp

theorem runBeforeUpdate_returns {S : Type} (ms : Methods S) (update : Value) (w : World S)
    (h : update.isDocument = true → (ms.BeforeUpdate update w.heap w.env).returned = true) :
    (runBeforeUpdate ms update w).1 = true := by
  unfold runBeforeUpdate
  cases hd : update.isDocument
  · simp
  · simpa using h hd

theorem runBeforeUpdate_panics {S : Type} (ms : Methods S) (update : Value) (w : World S)
    (hd : update.isDocument = true)
    (h : (ms.BeforeUpdate update w.heap w.env).returned = false) :
    (runBeforeUpdate ms update w).1 = false := by
  simp [runBeforeUpdate, hd, h]

theorem shapeUpdate_operator {S : Type} (ms : Methods S) (update : Value) (w : World S)
    (hop : isMongoOperator update = true) :
    shapeUpdate ms update w = .proceed update w := by
  simp [shapeUpdate, hop]

theorem shapeUpdate_unsupported {S : Type} (ms : Methods S) (update : Value) (w : World S)
    (hop : isMongoOperator update = false) (hst : isStructOrPtrToStruct update = false) :
    shapeUpdate ms update w =
      .reject (.errorf ("unsupported update type: " ++ update.typeName)) := by
  simp [shapeUpdate, hop, hst]

theorem shapeUpdate_struct_returns {S : Type} (ms : Methods S) (update : Value)
    (w : World S) (hop : isMongoOperator update = false)
    (hst : isStructOrPtrToStruct update = true)
    (hret : (runBeforeUpdate ms update w).1 = true) :
    shapeUpdate ms update w =
      .proceed (.M [("$set", update)]) (runBeforeUpdate ms update w).2 := by
  simp [shapeUpdate, hop, hst, hret]

theorem shapeUpdate_struct_panics {S : Type} (ms : Methods S) (update : Value)
    (w : World S) (hop : isMongoOperator update = false)
    (hst : isStructOrPtrToStruct update = true)
    (hret : (runBeforeUpdate ms update w).1 = false) :
    shapeUpdate ms update w = .panic (runBeforeUpdate ms update w).2 := by
  simp [shapeUpdate, hop, hst, hret]

theorem UpdateOne_of_proceed {S : Type} (ms : Methods S) (r : Repository S)
    (filter update u : Value) (opts : Opts) (w w0 : World S)
    (h : shapeUpdate ms update w = .proceed u w0) :
    (r.UpdateOne ms filter update opts w).2 = w0.emit (.call (.UpdateOne filter u opts)) ∧
    (r.UpdateOne ms filter update opts w).1 =
      (match r.collection.UpdateOne w0.trace filter u opts with
        | .error err => .returned (none, some err)
        | .ok res => .returned (some res, none)) := by
  simp only [Repository.UpdateOne, h]
  constructor <;> split <;> rfl

theorem UpdateMany_of_proceed {S : Type} (ms : Methods S) (r : Repository S)
    (filter update u : Value) (opts : Opts) (w w0 : World S)
    (h : shapeUpdate ms update w = .proceed u w0) :
    (r.UpdateMany ms filter update opts w).2 =
      w0.emit (.call (.UpdateMany filter u opts)) ∧
    (r.UpdateMany ms filter update opts w).1 =
      (match r.collection.UpdateMany w0.trace filter u opts with
        | .error err => .returned (none, some (.wrapf "failed to update documents" err))
        | .ok res => .returned (some res, none)) := by
  simp only [Repository.UpdateMany, h]
  constructor <;> split <;> rfl

theorem FindOneAndUpdate_of_proceed {S : Type} (ms : Methods S) (r : Repository S)
    (filter update u : Value) (fopts : List FindOneAndUpdateOptions) (w w0 : World S)
    (h : shapeUpdate ms update w = .proceed u w0) :
    (r.FindOneAndUpdate ms filter update fopts w).2 =
      w0.emit (.call (.FindOneAndUpdate filter u
        (fopts ++ [[FindOneAndUpdateSetter.SetReturnDocument .After]]))) ∧
    (r.FindOneAndUpdate ms filter update fopts w).1 =
      (match r.collection.FindOneAndUpdate w0.trace filter u
          (fopts ++ [[FindOneAndUpdateSetter.SetReturnDocument .After]]) with
        | .error err => .returned (none, some err)
        | .ok res => .returned (some res, none)) := by
  simp only [Repository.FindOneAndUpdate, h]
  constructor <;> split <;> rfl

theorem update_of_reject {S : Type} (ms : Methods S) (r : Repository S)
    (filter update : Value) (opts : Opts) (fopts : List FindOneAndUpdateOptions)
    (w : World S) (err : GoError) (h : shapeUpdate ms update w = .reject err) :
    r.UpdateOne ms filter update opts w = (.returned (none, some err), w) ∧
    r.UpdateMany ms filter update opts w = (.returned (none, some err), w) ∧
    r.FindOneAndUpdate ms filter update fopts w = (.returned (none, some err), w) := by
  simp [Repository.UpdateOne, Repository.UpdateMany, Repository.FindOneAndUpdate, h]

theorem update_of_panic {S : Type} (ms : Methods S) (r : Repository S)
    (filter update : Value) (opts : Opts) (fopts : List FindOneAndUpdateOptions)
    (w w0 : World S) (h : shapeUpdate ms update w = .panic w0) :
    r.UpdateOne ms filter update opts w = (.panicked, w0) ∧
    r.UpdateMany ms filter update opts w = (.panicked, w0) ∧
    r.FindOneAndUpdate ms filter update fopts w = (.panicked, w0) := by
  simp [Repository.UpdateOne, Repository.UpdateMany, Repository.FindOneAndUpdate, h]

/-- C4 (amended): for every update argument of dynamic type `bson.M` with at
least one key beginning with `$`, `UpdateOne`, `UpdateMany` and
`FindOneAndUpdate` add exactly one event to the trace, the store call carrying
the argument unmodified (so no `BeforeUpdate` hook runs and nothing is wrapped),
and return no error of their own: the error is the store's, if any.  An ordered
`bson.D` and a plain `map[string]any` are rejected by all three as an
unsupported update type, whatever their keys, and the world is left as it was. -/
theorem operator_update_passes_through {S : Type} (ms : Methods S) (r : Repository S)
    (filter : Value) (m d : List (String × Value)) (opts : Opts)
    (fopts : List FindOneAndUpdateOptions) (w : World S)
    (h : ∃ kv ∈ m, hasSigil kv.1 = true) :
    (r.UpdateOne ms filter (.M m) opts w).2 =
        w.emit (.call (.UpdateOne filter (.M m) opts)) ∧
      (r.UpdateOne ms filter (.M m) opts w).1 =
        (match r.collection.UpdateOne w.trace filter (.M m) opts with
          | .error err => .returned (none, some err)
          | .ok res => .returned (some res, none)) ∧
      (r.UpdateMany ms filter (.M m) opts w).2 =
        w.emit (.call (.UpdateMany filter (.M m) opts)) ∧
      (r.UpdateMany ms filter (.M m) opts w).1 =
        (match r.collection.UpdateMany w.trace filter (.M m) opts with
          | .error err => .returned (none, some (.wrapf "failed to update documents" err))
          | .ok res => .returned (some res, none)) ∧
      (r.FindOneAndUpdate ms filter (.M m) fopts w).2 =
        w.emit (.call (.FindOneAndUpdate filter (.M m)
          (fopts ++ [[FindOneAndUpdateSetter.SetReturnDocument .After]]))) ∧
      (r.FindOneAndUpdate ms filter (.M m) fopts w).1 =
        (match r.collection.FindOneAndUpdate w.trace filter (.M m)
            (fopts ++ [[FindOneAndUpdateSetter.SetReturnDocument .After]]) with
          | .error err => .returned (none, some err)
          | .ok res => .returned (some res, none)) ∧
      r.UpdateOne ms filter (.D d) opts w =
        (.returned (none, some (GoError.errorf "unsupported update type: bson.D")), w) ∧
      r.UpdateMany ms filter (.D d) opts w =
        (.returned (none, some (GoError.errorf "unsupported update type: bson.D")), w) ∧
      r.FindOneAndUpdate ms filter (.D d) fopts w =
        (.returned (none, some (GoError.errorf "unsupported update type: bson.D")), w) ∧
      r.UpdateOne ms filter (.map d) opts w =
        (.returned (none, some (GoError.errorf
          "unsupported update type: map[string]interface \x7b\x7d")), w) ∧
      r.UpdateMany ms filter (.map d) opts w =
        (.returned (none, some (GoError.errorf
          "unsupported update type: map[string]interface \x7b\x7d")), w) ∧
      r.FindOneAndUpdate ms filter (.map d) fopts w =
        (.returned (none, some (GoError.errorf
          "unsupported update type: map[string]interface \x7b\x7d")), w) := by
  have hp := shapeUpdate_operator ms (.M m) w (isMongoOperator_M_of_sigil m h)
  have hD := update_of_reject ms r filter (.D d) opts fopts w _
    (shapeUpdate_unsupported ms (.D d) w rfl rfl)
  have hmap := update_of_reject ms r filter (.map d) opts fopts w _
    (shapeUpdate_unsupported ms (.map d) w rfl rfl)
  exact ⟨(UpdateOne_of_proceed ms r filter _ _ opts w w hp).1,
    (UpdateOne_of_proceed ms r filter _ _ opts w w hp).2,
    (UpdateMany_of_proceed ms r filter _ _ opts w w hp).1,
    (UpdateMany_of_proceed ms r filter _ _ opts w w hp).2,
    (FindOneAndUpdate_of_proceed ms r filter _ _ fopts w w hp).1,
    (FindOneAndUpdate_of_proceed ms r filter _ _ fopts w w hp).2,
    hD.1, hD.2.1, hD.2.2, hmap.1, hmap.2.1, hmap.2.2⟩

/-- Witness for C4: the update `bson.M{"$inc": bson.M{"n": 1}}`. -/
theorem operator_update_passes_through_witness :
    (∃ kv ∈ [("$inc", Value.M [("n", Value.int 1)])], hasSigil kv.1 = true) ∧
    (okRepo.UpdateOne baseFieldMethods (.M [])
        (.M [("$inc", Value.M [("n", Value.int 1)])]) [] (initWorld BaseField)).2 =
      (initWorld BaseField).emit
        (.call (.UpdateOne (.M []) (.M [("$inc", Value.M [("n", Value.int 1)])]) [])) :=
  ⟨⟨_, List.mem_singleton.mpr rfl, rfl⟩,
    (operator_update_passes_through baseFieldMethods okRepo (.M [])
      [("$inc", Value.M [("n", Value.int 1)])] [] [] [] (initWorld BaseField)
      ⟨_, List.mem_singleton.mpr rfl, rfl⟩).1⟩

/-- C4 as stated fails: an ordered `bson.D` and a plain `map[string]any` whose only
key is `$set` are not passed through.  `UpdateOne` returns the unsupported update
type error for each and the store receives nothing. -/
theorem UpdateOne_rejects_operator_in_D_and_map :
    hasSigil "$set" = true ∧
    (okRepo.UpdateOne baseFieldMethods (.M [])
        (.D [("$set", Value.M [("n", Value.int 1)])]) []
        (initWorld BaseField)).1.error =
      some (GoError.errorf "unsupported update type: bson.D") ∧
    (okRepo.UpdateOne baseFieldMethods (.M [])
        (.D [("$set", Value.M [("n", Value.int 1)])]) []
        (initWorld BaseField)).2.trace = [] ∧
    (okRepo.UpdateOne baseFieldMethods (.M [])
        (.map [("$set", Value.M [("n", Value.int 1)])]) []
        (initWorld BaseField)).1.error =
      some (GoError.errorf "unsupported update type: map[string]interface \x7b\x7d") ∧
    (okRepo.UpdateOne baseFieldMethods (.M [])
        (.map [("$set", Value.M [("n", Value.int 1)])]) []
        (initWorld BaseField)).2.trace = [] ∧
    ¬ (okRepo.UpdateOne baseFieldMethods (.M [])
        (.D [("$set", Value.M [("n", Value.int 1)])]) []
        (initWorld BaseField)).1.error = none :=
  ⟨rfl, rfl, rfl, rfl, rfl, fun h => Option.noConfusion h⟩

/-- C5 (amended): for every update argument that is a struct or a pointer to a
struct, `UpdateOne`, `UpdateMany` and `FindOneAndUpdate` invoke the argument's
`BeforeUpdate` hook once when it implements `Document` and invoke nothing when it
does not, before any store call.  When the hook returns, or there is none, the
single store call follows and its update document is exactly
`{"$set": <the argument>}`.  When the hook panics, the method panics with it:
the trace ends with the hook invocation and no store call is made. -/
theorem struct_update_is_hooked_and_wrapped {S : Type} (ms : Methods S)
    (r : Repository S) (filter update : Value) (opts : Opts)
    (fopts : List FindOneAndUpdateOptions) (w : World S)
    (h : (∃ ty tag, update = .struct ty tag) ∨
      (∃ ty p, update = .ptr (.struct ty) p)) :
    ((update.isDocument = true →
          (ms.BeforeUpdate update w.heap w.env).returned = true) →
        (r.UpdateOne ms filter update opts w).2.trace =
            w.trace ++ (if update.isDocument then [Event.BeforeUpdate update] else []) ++
              [Event.call (Call.UpdateOne filter (.M [("$set", update)]) opts)] ∧
          (r.UpdateMany ms filter update opts w).2.trace =
            w.trace ++ (if update.isDocument then [Event.BeforeUpdate update] else []) ++
              [Event.call (Call.UpdateMany filter (.M [("$set", update)]) opts)] ∧
          (r.FindOneAndUpdate ms filter update fopts w).2.trace =
            w.trace ++ (if update.isDocument then [Event.BeforeUpdate update] else []) ++
              [Event.call (Call.FindOneAndUpdate filter (.M [("$set", update)])
                (fopts ++ [[FindOneAndUpdateSetter.SetReturnDocument .After]]))]) ∧
      (update.isDocument = true →
        (ms.BeforeUpdate update w.heap w.env).returned = false →
        ((r.UpdateOne ms filter update opts w).1 = .panicked ∧
            (r.UpdateOne ms filter update opts w).2.trace =
              w.trace ++ [Event.BeforeUpdate update]) ∧
          ((r.UpdateMany ms filter update opts w).1 = .panicked ∧
            (r.UpdateMany ms filter update opts w).2.trace =
              w.trace ++ [Event.BeforeUpdate update]) ∧
          ((r.FindOneAndUpdate ms filter update fopts w).1 = .panicked ∧
            (r.FindOneAndUpdate ms filter update fopts w).2.trace =
              w.trace ++ [Event.BeforeUpdate update])) := by
  have hop := isMongoOperator_of_struct h
  have hst := isStructOrPtrToStruct_of_struct h
  constructor
  · intro hret
    have hp := shapeUpdate_struct_returns ms update w hop hst
      (runBeforeUpdate_returns ms update w hret)
    refine ⟨?_, ?_, ?_⟩
    · rw [(UpdateOne_of_proceed ms r filter _ _ opts w _ hp).1]
      simp [World.emit, runBeforeUpdate_trace]
    · rw [(UpdateMany_of_proceed ms r filter _ _ opts w _ hp).1]
      simp [World.emit, runBeforeUpdate_trace]
    · rw [(FindOneAndUpdate_of_proceed ms r filter _ _ fopts w _ hp).1]
      simp [World.emit, runBeforeUpdate_trace]
  · intro hd hpanic
    have hp := update_of_panic ms r filter update opts fopts w _
      (shapeUpdate_struct_panics ms update w hop hst
        (runBeforeUpdate_panics ms update w hd hpanic))
    have htr : (runBeforeUpdate ms update w).2.trace =
        w.trace ++ [Event.BeforeUpdate update] := by
      rw [runBeforeUpdate_trace, hd]; rfl
    rw [hp.1, hp.2.1, hp.2.2]
    exact ⟨⟨rfl, htr⟩, ⟨rfl, htr⟩, ⟨rfl, htr⟩⟩

/-- Witness for C5: a pointer to the `BaseField` at address 1, whose hook
returns. -/
theorem struct_update_is_hooked_and_wrapped_witness :
    ((∃ ty tag, Value.ptr (.struct baseFieldType) (.addr 1) = .struct ty tag) ∨
      (∃ ty p, Value.ptr (.struct baseFieldType) (.addr 1) = .ptr (.struct ty) p)) ∧
    (okRepo.UpdateOne baseFieldMethods (.M []) (.ptr (.struct baseFieldType) (.addr 1)) []
        (initWorld BaseField)).2.trace =
      (initWorld BaseField).trace ++
        (if (Value.ptr (.struct baseFieldType) (.addr 1)).isDocument then
          [Event.BeforeUpdate (.ptr (.struct baseFieldType) (.addr 1))] else []) ++
        [Event.call (Call.UpdateOne (.M [])
          (.M [("$set", .ptr (.struct baseFieldType) (.addr 1))]) [])] :=
  ⟨Or.inr ⟨_, _, rfl⟩,
    ((struct_update_is_hooked_and_wrapped baseFieldMethods okRepo (.M [])
      (.ptr (.struct baseFieldType) (.addr 1)) [] [] (initWorld BaseField)
      (Or.inr ⟨_, _, rfl⟩)).1 (fun _ => rfl)).1⟩

/-- C5 as stated fails: the nil pointer `(*BaseField)(nil)` is a pointer to a
struct that implements `Document`; `BeforeUpdate` panics on its nil receiver, so
`UpdateOne` panics after the hook invocation and the store receives no
`{"$set": ...}` document at all. -/
theorem UpdateOne_panics_on_nil_pointer :
    isStructOrPtrToStruct nilBaseField = true ∧
    nilBaseField.isDocument = true ∧
    (okRepo.UpdateOne baseFieldMethods (.M []) nilBaseField []
        (initWorld BaseField)).1 = .panicked ∧
    (okRepo.UpdateOne baseFieldMethods (.M []) nilBaseField []
        (initWorld BaseField)).2.trace = [Event.BeforeUpdate nilBaseField] ∧
    ¬ (okRepo.UpdateOne baseFieldMethods (.M []) nilBaseField []
        (initWorld BaseField)).2.trace =
      [Event.BeforeUpdate nilBaseField,
        Event.call (Call.UpdateOne (.M []) (.M [("$set", nilBaseField)]) [])] :=
  ⟨rfl, rfl, rfl, rfl, fun h => absurd (congrArg List.length h) (by decide)⟩

/-- C6: for every update argument that is neither an operator expression nor a
struct or pointer to a struct, each of `UpdateOne`, `UpdateMany` and
`FindOneAndUpdate` returns the "unsupported update type" error and leaves the
world as it was: no hook is invoked and no store call is issued. -/
theorem unsupported_update_is_rejected {S : Type} (ms : Methods S) (r : Repository S)
    (filter update : Value) (opts : Opts) (fopts : List FindOneAndUpdateOptions)
    (w : World S)
    (hop : isMongoOperator update = false) (hst : isStructOrPtrToStruct update = false) :
    r.UpdateOne ms filter update opts w =
        (.returned (none,
          some (GoError.errorf ("unsupported update type: " ++ update.typeName))), w) ∧
      r.UpdateMany ms filter update opts w =
        (.returned (none,
          some (GoError.errorf ("unsupported update type: " ++ update.typeName))), w) ∧
      r.FindOneAndUpdate ms filter update fopts w =
        (.returned (none,
          some (GoError.errorf ("unsupported update type: " ++ update.typeName))), w) :=
  update_of_reject ms r filter update opts fopts w _
    (shapeUpdate_unsupported ms update w hop hst)

/-- Witness for C6: the primitive update `5`. -/
theorem unsupported_update_is_rejected_witness :
    isMongoOperator (.int 5) = false ∧ isStructOrPtrToStruct (.int 5) = false ∧
    okRepo.UpdateOne baseFieldMethods (.M []) (.int 5) [] (initWorld BaseField) =
      (.returned (none, some (GoError.errorf
        ("unsupported update type: " ++ (Value.int 5).typeName))), initWorld BaseField) :=
  ⟨rfl, rfl,
    (unsupported_update_is_rejected baseFieldMethods okRepo (.M []) (.int 5) [] []
      (initWorld BaseField) rfl rfl).1⟩

/-- The shapes the classifier rejects include the nil interface, primitives,
slices, `bson.D`, plain maps, pointers to non-structs, and a `bson.M` none of
whose keys begins with `$`. -/
theorem unsupported_shapes :
    (isMongoOperator .nil = false ∧ isStructOrPtrToStruct .nil = false) ∧
    (∀ n, isMongoOperator (.int n) = false ∧ isStructOrPtrToStruct (.int n) = false) ∧
    (∀ s, isMongoOperator (.string s) = false ∧
      isStructOrPtrToStruct (.string s) = false) ∧
    (∀ xs, isMongoOperator (.slice xs) = false ∧
      isStructOrPtrToStruct (.slice xs) = false) ∧
    (∀ d, isMongoOperator (.D d) = false ∧ isStructOrPtrToStruct (.D d) = false) ∧
    (∀ m, isMongoOperator (.map m) = false ∧ isStructOrPtrToStruct (.map m) = false) ∧
    (∀ m, (∀ kv ∈ m, hasSigil kv.1 = false) →
      isMongoOperator (.M m) = false ∧ isStructOrPtrToStruct (.M m) = false) := by
  refine ⟨⟨rfl, rfl⟩, fun _ => ⟨rfl, rfl⟩, fun _ => ⟨rfl, rfl⟩, fun _ => ⟨rfl, rfl⟩,
    fun _ => ⟨rfl, rfl⟩, fun _ => ⟨rfl, rfl⟩, fun m hm => ⟨?_, rfl⟩⟩
  simp only [isMongoOperator, List.any_eq_false]
  intro kv hkv
  simp [hm kv hkv]

/-! ## Insertion -/

theorem runBeforeInsert_trace {S : Type} (tp : TypeParam S) (d : Ptr) (w : World S) :
    (runBeforeInsert tp d w).2.trace = w.trace ++ owedHooks tp [d] := by
  unfold runBeforeInsert owedHooks
  cases tp.asDocument <;> simp

theorem owedHooks_cons {S : Type} (tp : TypeParam S) (d : Ptr) (rest : List Ptr) :
    owedHooks tp (d :: rest) = owedHooks tp [d] ++ owedHooks tp rest := by
  unfold owedHooks
  cases tp.asDocument <;> simp

theorem insertManyLoop_returns_trace {S : Type} (tp : TypeParam S) (docs : List Ptr) :
    ∀ w : World S, (insertManyLoop tp docs w).1 = true →
      (insertManyLoop tp docs w).2.trace = w.trace ++ owedHooks tp docs := by
  induction docs with
  | nil =>
    intro w _
    cases h : tp.asDocument <;> simp [insertManyLoop, owedHooks, h]
  | cons d rest ih =>
    intro w hret
    cases hd : (runBeforeInsert tp d w).1 with
    | false => simp [insertManyLoop, hd] at hret
    | true =>
      simp only [insertManyLoop, hd] at hret ⊢
      rw [ih _ hret, runBeforeInsert_trace, List.append_assoc, ← owedHooks_cons]

theorem insertManyLoop_no_hooks {S : Type} (tp : TypeParam S) (h : tp.asDocument = none)
    (docs : List Ptr) : ∀ w : World S, (insertManyLoop tp docs w).1 = true := by
  induction docs with
  | nil => intro w; rfl
  | cons d rest ih =>
    intro w
    simp [insertManyLoop, runBeforeInsert, h, ih]

theorem insertManyLoop_panics_trace {S : Type} (tp : TypeParam S) (docs : List Ptr) :
    ∀ w : World S, (insertManyLoop tp docs w).1 = false →
      ∃ k, k < docs.length ∧
        (insertManyLoop tp docs w).2.trace =
          w.trace ++ (docs.take (k + 1)).map Event.BeforeInsert := by
  induction docs with
  | nil => intro w h; simp [insertManyLoop] at h
  | cons d rest ih =>
    intro w hpanic
    have hsome : ∃ hook, tp.asDocument = some hook := by
      cases h : tp.asDocument with
      | none =>
        exfalso
        rw [insertManyLoop_no_hooks tp h] at hpanic
        exact Bool.noConfusion hpanic
      | some hook => exact ⟨hook, rfl⟩
    obtain ⟨hook, hhook⟩ := hsome
    have hone : (runBeforeInsert tp d w).2.trace = w.trace ++ [Event.BeforeInsert d] := by
      rw [runBeforeInsert_trace]; simp [owedHooks, hhook]
    cases hd : (runBeforeInsert tp d w).1 with
    | false =>
      refine ⟨0, by simp, ?_⟩
      simp only [insertManyLoop, hd]
      simpa using hone
    | true =>
      simp only [insertManyLoop, hd] at hpanic ⊢
      obtain ⟨k, hk, htr⟩ := ih _ hpanic
      refine ⟨k + 1, by simpa using hk, ?_⟩
      rw [htr, hone]
      simp

/-- The hooks of `*BaseField` all return on a list of documents exactly when no
document in it is the nil pointer. -/
theorem insertManyLoop_baseField_returns (docs : List Ptr) :
    ∀ w : World BaseField,
      (insertManyLoop baseFieldParam docs w).1 = true ↔ ∀ p ∈ docs, p ≠ Ptr.nil := by
  induction docs with
  | nil => intro w; simp [insertManyLoop]
  | cons d rest ih =>
    intro w
    cases d with
    | nil =>
      have h1 : (runBeforeInsert baseFieldParam .nil w).1 = false := rfl
      simp [insertManyLoop, h1]
    | addr a =>
      have h1 : (runBeforeInsert baseFieldParam (.addr a) w).1 = true := rfl
      simp only [insertManyLoop, h1, ih]
      simp

/-- C8 (amended): `InsertMany` on an empty or nil list returns the error "no
documents to insert" with a nil identifier list and leaves the world as it was
(no hook, no store call).  On a non-empty list it invokes `BeforeInsert` on the
documents in input order when their type implements `Document`.  When every
hook returns, each document has been hooked exactly once and a single
insert-many call follows, carrying the same pointers in the same order and
number, each read as the hooks left the struct behind it; that is always so
when the document type has no `Document` methods.  When a hook panics,
`InsertMany` panics with it: the trace holds the hook invocations up to that
document and no store call. -/
theorem InsertMany_hooks_then_one_call {S : Type} (tp : TypeParam S) (r : Repository S)
    (documents : Slice Ptr) (opts : Opts) (w : World S) :
    (documents.len = 0 →
        r.InsertMany tp documents opts w =
          (.returned (Slice.nil, some (GoError.errorf "no documents to insert")), w)) ∧
      (documents.len ≠ 0 → (insertManyLoop tp documents.elems w).1 = true →
        (r.InsertMany tp documents opts w).2.trace =
          w.trace ++ owedHooks tp documents.elems ++
            [Event.call (Call.InsertMany documents.elems
              (documents.elems.map (insertManyLoop tp documents.elems w).2.deref)
              opts)]) ∧
      (documents.len ≠ 0 → (insertManyLoop tp documents.elems w).1 = false →
        (r.InsertMany tp documents opts w).1 = .panicked ∧
          ∃ k, k < documents.len ∧
            (r.InsertMany tp documents opts w).2.trace =
              w.trace ++ (documents.elems.take (k + 1)).map Event.BeforeInsert) ∧
      (tp.asDocument = none → (insertManyLoop tp documents.elems w).1 = true) := by
  refine ⟨?_, ?_, ?_, fun h => insertManyLoop_no_hooks tp h _ w⟩
  · intro h
    simp [Repository.InsertMany, h]
  · intro h hret
    simp only [Repository.InsertMany, h, if_false, hret]
    split <;> simp [World.emit, insertManyLoop_returns_trace tp _ w hret]
  · intro h hpanic
    have hlen : documents.elems.length = documents.len := by cases documents <;> rfl
    obtain ⟨k, hk, htr⟩ := insertManyLoop_panics_trace tp documents.elems w hpanic
    have hrun : r.InsertMany tp documents opts w =
        (.panicked, (insertManyLoop tp documents.elems w).2) := by
      simp [Repository.InsertMany, h, hpanic]
    rw [hrun]
    exact ⟨rfl, k, hlen ▸ hk, htr⟩

/-- Witness for C8: a nil list, and a list of two documents in memory. -/
theorem InsertMany_hooks_then_one_call_witness :
    okRepo.InsertMany baseFieldParam .nil [] twoDocWorld =
      (.returned (Slice.nil, some (GoError.errorf "no documents to insert")),
        twoDocWorld) ∧
    (okRepo.InsertMany baseFieldParam (.of [.addr 0, .addr 1]) [] twoDocWorld).2.trace =
      twoDocWorld.trace ++ owedHooks baseFieldParam (Slice.of [.addr 0, .addr 1]).elems ++
        [Event.call (Call.InsertMany (Slice.of [.addr 0, .addr 1]).elems
          ((Slice.of [.addr 0, .addr 1]).elems.map
            (insertManyLoop baseFieldParam (Slice.of [.addr 0, .addr 1]).elems
              twoDocWorld).2.deref) [])] :=
  ⟨(InsertMany_hooks_then_one_call baseFieldParam okRepo .nil [] twoDocWorld).1 rfl,
    (InsertMany_hooks_then_one_call baseFieldParam okRepo (.of [.addr 0, .addr 1]) []
      twoDocWorld).2.1 (by decide) rfl⟩

/-- C8 as stated fails: on the non-empty list whose second document is the nil
pointer, `BeforeInsert` panics on the nil receiver, so `InsertMany` panics after
two hook invocations and issues no insert-many call. -/
theorem InsertMany_panics_on_nil_document :
    (Slice.of [Ptr.addr 0, Ptr.nil]).len = 2 ∧
    (okRepo.InsertMany baseFieldParam (.of [.addr 0, .nil]) []
        (initWorld BaseField)).1 = .panicked ∧
    (okRepo.InsertMany baseFieldParam (.of [.addr 0, .nil]) []
        (initWorld BaseField)).2.trace =
      [Event.BeforeInsert (.addr 0), Event.BeforeInsert .nil] ∧
    storeCalls (okRepo.InsertMany baseFieldParam (.of [.addr 0, .nil]) []
        (initWorld BaseField)).2.trace = [] :=
  ⟨rfl, rfl, rfl, rfl⟩

/-- The trace of `InsertMany` on two `BaseField` documents with the ticking
clock: two hook invocations, then one call with the pointers and the structs as
the hooks left them. -/
theorem InsertMany_two_documents :
    (okRepo.InsertMany baseFieldParam (.of [.addr 0, .addr 1]) [] twoDocWorld).2.trace =
      [Event.BeforeInsert (.addr 0), Event.BeforeInsert (.addr 1),
        Event.call (Call.InsertMany [.addr 0, .addr 1]
          [some ⟨1, 0, 1⟩, some ⟨7, 2, 3⟩] [])] :=
  rfl

/-- The same pointer passed twice: the hook runs twice on the one struct, and the
call carries that struct twice, in its final state. -/
theorem InsertMany_same_pointer_twice :
    (okRepo.InsertMany baseFieldParam (.of [.addr 0, .addr 0]) []
        (initWorld BaseField)).2.trace =
      [Event.BeforeInsert (.addr 0), Event.BeforeInsert (.addr 0),
        Event.call (Call.InsertMany [.addr 0, .addr 0]
          [some ⟨1, 2, 3⟩, some ⟨1, 2, 3⟩] [])] :=
  rfl

/-! ## Error wrapping -/

theorem wrapf_ne_self (pfx : String) (e : GoError) : GoError.wrapf pfx e ≠ e := by
  intro h
  have hs := congrArg sizeOf h
  simp at hs

theorem wraps_wrapf (pfx : String) (e : GoError) :
    Wraps pfx e (some (GoError.wrapf pfx e)) :=
  ⟨_, rfl, rfl, wrapf_ne_self pfx e, rfl, rfl⟩

/-- C9 as stated fails: when the store's find fails with an error `e`, `FindOne`
returns `e` itself, not an error that wraps `e` under a message naming the
operation. -/
theorem FindOne_returns_store_error_itself :
    failingRepo.collection.FindOne (initWorld BaseField).trace (.M []) [] =
      .error (GoError.driver "connection reset") ∧
    (failingRepo.FindOne .nil [] (initWorld BaseField)).1.2 =
      some (GoError.driver "connection reset") ∧
    ¬ ∃ pfx, Wraps pfx (GoError.driver "connection reset")
      (failingRepo.FindOne .nil [] (initWorld BaseField)).1.2 := by
  refine ⟨rfl, rfl, ?_⟩
  rintro ⟨pfx, err, h1, h2, -⟩
  have h3 : (failingRepo.FindOne .nil [] (initWorld BaseField)).1.2 =
      some (GoError.driver "connection reset") := rfl
  rw [h3] at h1
  injection h1 with h1
  rw [h2] at h1
  exact GoError.noConfusion h1

/-- C9 (amended): every error `e` returned by the store call (or cursor read)
made by `InsertOne`, `InsertMany`, `Find`, `FindDecoded`, `FindPaginated`,
`FindPaginatedWithTotal`, `FindDecodedWithTotal`, `UpdateMany`, `DeleteOne`,
`DeleteByID`, `DeleteMany`, `EstimatedCount`, `CountDocuments`, `Aggregate`,
`AggregateTyped`, `Distinct`, `BulkWrite`, `Watch`, `EnsureIndexes`,
`EnsureIndexesAssertType`, `GetIndexes`, and by the session start of
`Transaction`, comes back wrapped under a fixed message naming the failed
operation, with `e` as the wrapped cause; the single-result operations `FindOne`,
`FindByID`, `FindOneAndUpdate`, `FindOneAndUpdateByID` and `FindOneAndDelete`
return the error of the driver's result as it is.  A store call that follows a
hook is made when the hook returns. -/
theorem store_errors_are_wrapped {S : Type} (tp : TypeParam S) (ms : Methods S)
    (r : Repository S) (w : World S) (e : GoError) (document : Ptr)
    (documents : Slice Ptr)
    (filter update pipeline id : Value) (opts : Opts) (fopts : List FindOptions)
    (uopts : List FindOneAndUpdateOptions) (page pageSize : Int) (fieldName : String)
    (models indexes : List Value) (fn : World S → Option GoError × World S) :
    -- InsertOne: the insert, then the fetch of the inserted document
    ((runBeforeInsert tp document w).1 = true →
      r.collection.InsertOne (runBeforeInsert tp document w).2.trace
          ((runBeforeInsert tp document w).2.deref document) opts = .error e →
        Wraps "failed to insert document" e
          (r.InsertOne tp document opts w).1.error) ∧
    (∀ insertedID, (runBeforeInsert tp document w).1 = true →
      r.collection.InsertOne (runBeforeInsert tp document w).2.trace
          ((runBeforeInsert tp document w).2.deref document) opts = .ok insertedID →
      r.collection.FindOne
          ((runBeforeInsert tp document w).2.emit
            (.call (.InsertOne document
              ((runBeforeInsert tp document w).2.deref document) opts))).trace
          (.M [("_id", insertedID)]) [] = .error e →
        Wraps "failed to fetch inserted document" e
          (r.InsertOne tp document opts w).1.error) ∧
    -- InsertMany
    (documents.len ≠ 0 → (insertManyLoop tp documents.elems w).1 = true →
      r.collection.InsertMany (insertManyLoop tp documents.elems w).2.trace
          (documents.elems.map (insertManyLoop tp documents.elems w).2.deref)
          opts = .error e →
        Wraps "failed to insert documents" e
          (r.InsertMany tp documents opts w).1.error) ∧
    -- Find and FindDecoded: the find, then the cursor read
    (r.collection.Find w.trace (defaultFilter filter) fopts = .error e →
        Wraps "failed to execute find" e (r.Find filter fopts w).1.2) ∧
    (∀ cursor, r.collection.Find w.trace (defaultFilter filter) fopts = .ok cursor →
      cursor.All = .error e →
        Wraps "failed to decode results" e (r.Find filter fopts w).1.2) ∧
    (r.collection.Find w.trace (defaultFilter filter) fopts = .error e →
        Wraps "failed to execute find" e (r.FindDecoded filter fopts w).1.2) ∧
    (∀ cursor, r.collection.Find w.trace (defaultFilter filter) fopts = .ok cursor →
      cursor.All = .error e →
        Wraps "failed to decode results" e (r.FindDecoded filter fopts w).1.2) ∧
    -- FindPaginated, on a valid page
    (1 ≤ page → 1 ≤ pageSize →
      r.collection.Find w.trace (defaultFilter filter)
          [[FindSetter.SetSkip (int64Mul (int64Sub page 1) pageSize),
            FindSetter.SetLimit pageSize]] = .error e →
        Wraps "failed to execute find" e
          (r.FindPaginated filter page pageSize w).1.2) ∧
    (∀ cursor, 1 ≤ page → 1 ≤ pageSize →
      r.collection.Find w.trace (defaultFilter filter)
          [[FindSetter.SetSkip (int64Mul (int64Sub page 1) pageSize),
            FindSetter.SetLimit pageSize]] = .ok cursor →
      cursor.All = .error e →
        Wraps "failed to decode results" e
          (r.FindPaginated filter page pageSize w).1.2) ∧
    -- FindPaginatedWithTotal: the count, the find, the cursor read
    (r.collection.CountDocuments w.trace filter [] = .error e →
        Wraps "failed to count documents" e
          (r.FindPaginatedWithTotal filter page pageSize w).1.2.2) ∧
    (∀ total, 1 ≤ page → 1 ≤ pageSize →
      r.collection.CountDocuments w.trace filter [] = .ok total →
      r.collection.Find (w.emit (.call (.CountDocuments filter []))).trace
          (defaultFilter filter)
          [[FindSetter.SetSkip (int64Mul (int64Sub page 1) pageSize),
            FindSetter.SetLimit pageSize]] = .error e →
        Wraps "failed to execute find" e
          (r.FindPaginatedWithTotal filter page pageSize w).1.2.2) ∧
    (∀ total cursor, 1 ≤ page → 1 ≤ pageSize →
      r.collection.CountDocuments w.trace filter [] = .ok total →
      r.collection.Find (w.emit (.call (.CountDocuments filter []))).trace
          (defaultFilter filter)
          [[FindSetter.SetSkip (int64Mul (int64Sub page 1) pageSize),
            FindSetter.SetLimit pageSize]] = .ok cursor →
      cursor.All = .error e →
        Wraps "failed to decode results" e
          (r.FindPaginatedWithTotal filter page pageSize w).1.2.2) ∧
    -- FindDecodedWithTotal: the count, the find, the cursor read
    (r.collection.CountDocuments w.trace filter [] = .error e →
        Wraps "failed to count documents" e
          (r.FindDecodedWithTotal filter fopts w).1.2.2) ∧
    (∀ total, r.collection.CountDocuments w.trace filter [] = .ok total →
      r.collection.Find (w.emit (.call (.CountDocuments filter []))).trace
          (defaultFilter filter) fopts = .error e →
        Wraps "failed to execute find" e
          (r.FindDecodedWithTotal filter fopts w).1.2.2) ∧
    (∀ total cursor, r.collection.CountDocuments w.trace filter [] = .ok total →
      r.collection.Find (w.emit (.call (.CountDocuments filter []))).trace
          (defaultFilter filter) fopts = .ok cursor →
      cursor.All = .error e →
        Wraps "failed to decode results" e
          (r.FindDecodedWithTotal filter fopts w).1.2.2) ∧
    -- UpdateMany, on an operator document and on a struct
    (isMongoOperator update = true →
      r.collection.UpdateMany w.trace filter update opts = .error e →
        Wraps "failed to update documents" e
          (r.UpdateMany ms filter update opts w).1.error) ∧
    (isMongoOperator update = false → isStructOrPtrToStruct update = true →
      (runBeforeUpdate ms update w).1 = true →
      r.collection.UpdateMany (runBeforeUpdate ms update w).2.trace filter
          (.M [("$set", update)]) opts = .error e →
        Wraps "failed to update documents" e
          (r.UpdateMany ms filter update opts w).1.error) ∧
    -- DeleteOne, DeleteByID, DeleteMany
    (r.collection.DeleteOne w.trace filter opts = .error e →
        Wraps "failed to delete document" e (r.DeleteOne filter opts w).1) ∧
    (r.collection.DeleteOne w.trace (.M [("_id", id)]) opts = .error e →
        Wraps "failed to delete document" e (r.DeleteByID id opts w).1) ∧
    (r.collection.DeleteMany w.trace filter opts = .error e →
        Wraps "failed to delete documents" e (r.DeleteMany filter opts w).1.2) ∧
    -- collection.go
    (r.collection.EstimatedDocumentCount w.trace opts = .error e →
        Wraps "failed to count documents" e (r.EstimatedCount opts w).1.2) ∧
    (r.collection.CountDocuments w.trace filter opts = .error e →
        Wraps "failed to count documents" e (r.CountDocuments filter opts w).1.2) ∧
    (r.collection.Aggregate w.trace pipeline opts = .error e →
        Wraps "failed to execute aggregate" e (r.Aggregate pipeline opts w).1.2) ∧
    (∀ cursor, r.collection.Aggregate w.trace pipeline opts = .ok cursor →
      cursor.All = .error e →
        Wraps "failed to decode aggregate results" e
          (r.Aggregate pipeline opts w).1.2) ∧
    (r.collection.AggregateTyped w.trace pipeline opts = .error e →
        Wraps "failed to execute aggregate" e
          (r.AggregateTyped pipeline opts w).1.2) ∧
    (∀ cursor, r.collection.AggregateTyped w.trace pipeline opts = .ok cursor →
      cursor.All = .error e →
        Wraps "failed to decode aggregate results" e
          (r.AggregateTyped pipeline opts w).1.2) ∧
    (r.collection.Distinct w.trace fieldName filter opts = .error e →
        Wraps "failed to find distinct values" e
          (r.Distinct fieldName filter opts w).1.2) ∧
    (r.collection.BulkWrite w.trace models opts = .error e →
        Wraps "failed to perform bulk write" e (r.BulkWrite models opts w).1.2) ∧
    (r.collection.Watch w.trace pipeline opts = .error e →
        Wraps "failed to create change stream" e (r.Watch pipeline opts w).1.2) ∧
    -- indexes.go
    (r.collection.CreateMany w.trace indexes opts = .error e →
        Wraps "failed to create indexes" e (r.EnsureIndexes indexes opts w).1) ∧
    (∀ declared, tp.asIIndex = some (some declared) →
      r.collection.CreateMany w.trace declared opts = .error e →
        ∃ res, (r.EnsureIndexesAssertType tp opts w).1 = .returned res ∧
          Wraps "failed to create indexes" e res) ∧
    (r.collection.ListIndexes w.trace opts = .error e →
        Wraps "failed to list indexes" e (r.GetIndexes opts w).1.2) ∧
    (∀ cursor, r.collection.ListIndexes w.trace opts = .ok cursor →
      cursor.All = .error e →
        Wraps "failed to decode indexes" e (r.GetIndexes opts w).1.2) ∧
    -- transaction.go: the session start
    (r.collection.StartSession w.trace opts = .error e →
        Wraps "failed to start session" e (r.Transaction fn opts w).1) ∧
    -- the single-result operations hand the error on as it is
    (r.collection.FindOne w.trace (defaultFilter filter) opts = .error e →
        (r.FindOne filter opts w).1.2 = some e) ∧
    (r.collection.FindOne w.trace (.M [("_id", id)]) opts = .error e →
        (r.FindByID id opts w).1.2 = some e) ∧
    (isMongoOperator update = true →
      r.collection.FindOneAndUpdate w.trace filter update
          (uopts ++ [[FindOneAndUpdateSetter.SetReturnDocument .After]]) = .error e →
        (r.FindOneAndUpdate ms filter update uopts w).1.error = some e) ∧
    (isMongoOperator update = false → isStructOrPtrToStruct update = true →
      (runBeforeUpdate ms update w).1 = true →
      r.collection.FindOneAndUpdate (runBeforeUpdate ms update w).2.trace filter
          (.M [("$set", update)])
          (uopts ++ [[FindOneAndUpdateSetter.SetReturnDocument .After]]) = .error e →
        (r.FindOneAndUpdate ms filter update uopts w).1.error = some e) ∧
    (isMongoOperator update = true →
      r.collection.FindOneAndUpdate w.trace (.M [("_id", id)]) update
          (uopts ++ [[FindOneAndUpdateSetter.SetReturnDocument .After]]) = .error e →
        (r.FindOneAndUpdateByID ms id update uopts w).1.error = some e) ∧
    (isMongoOperator update = false → isStructOrPtrToStruct update = true →
      (runBeforeUpdate ms update w).1 = true →
      r.collection.FindOneAndUpdate (runBeforeUpdate ms update w).2.trace
          (.M [("_id", id)]) (.M [("$set", update)])
          (uopts ++ [[FindOneAndUpdateSetter.SetReturnDocument .After]]) = .error e →
        (r.FindOneAndUpdateByID ms id update uopts w).1.error = some e) ∧
    (r.collection.FindOneAndDelete w.trace filter opts = .error e →
        (r.FindOneAndDelete filter opts w).1.2 = some e) := by
  have hw := fun pfx => wraps_wrapf pfx e
  refine ⟨?_, ?_, ?_, ?_, ?_, ?_, ?_, ?_, ?_, ?_, ?_, ?_, ?_, ?_, ?_, ?_, ?_, ?_,
    ?_, ?_, ?_, ?_, ?_, ?_, ?_, ?_, ?_, ?_, ?_, ?_, ?_, ?_, ?_, ?_,
    ?_, ?_, ?_, ?_, ?_, ?_, ?_⟩
  · intro hret h
    simp only [Repository.InsertOne, hret, h, Outcome.error]
    exact hw _
  · intro insertedID hret h1 h2
    simp only [Repository.InsertOne, hret, h1, h2, Outcome.error]
    exact hw _
  · intro hlen hret h
    simp only [Repository.InsertMany, hlen, if_false, hret, h, Outcome.error]
    exact hw _
  · intro h
    simp only [Repository.Find, h]
    exact hw _
  · intro cursor h1 h2
    simp only [Repository.Find, h1, h2]
    exact hw _
  · intro h
    simp only [Repository.FindDecoded, h]
    exact hw _
  · intro cursor h1 h2
    simp only [Repository.FindDecoded, h1, h2]
    exact hw _
  · intro hp hs h
    have hp1 : ¬ page < 1 := by omega
    have hs1 : ¬ pageSize < 1 := by omega
    simp only [Repository.FindPaginated, hp1, hs1, if_false, List.nil_append,
      List.singleton_append, Repository.FindDecoded, h]
    exact hw _
  · intro cursor hp hs h1 h2
    have hp1 : ¬ page < 1 := by omega
    have hs1 : ¬ pageSize < 1 := by omega
    simp only [Repository.FindPaginated, hp1, hs1, if_false, List.nil_append,
      List.singleton_append, Repository.FindDecoded, h1, h2]
    exact hw _
  · intro h
    simp only [Repository.FindPaginatedWithTotal, h]
    exact hw _
  · intro total hp hs h1 h2
    have hp1 : ¬ page < 1 := by omega
    have hs1 : ¬ pageSize < 1 := by omega
    simp only [Repository.FindPaginatedWithTotal, h1, Repository.FindPaginated, hp1, hs1,
      if_false, List.nil_append, List.singleton_append, Repository.FindDecoded, h2]
    exact hw _
  · intro total cursor hp hs h1 h2 h3
    have hp1 : ¬ page < 1 := by omega
    have hs1 : ¬ pageSize < 1 := by omega
    simp only [Repository.FindPaginatedWithTotal, h1, Repository.FindPaginated, hp1, hs1,
      if_false, List.nil_append, List.singleton_append, Repository.FindDecoded, h2, h3]
    exact hw _
  · intro h
    simp only [Repository.FindDecodedWithTotal, h]
    exact hw _
  · intro total h1 h2
    simp only [Repository.FindDecodedWithTotal, h1, Repository.FindDecoded, h2]
    exact hw _
  · intro total cursor h1 h2 h3
    simp only [Repository.FindDecodedWithTotal, h1, Repository.FindDecoded, h2, h3]
    exact hw _
  · intro hop h
    rw [(UpdateMany_of_proceed ms r filter _ _ opts w _
      (shapeUpdate_operator ms update w hop)).2, h]
    exact hw _
  · intro hop hst hret h
    rw [(UpdateMany_of_proceed ms r filter _ _ opts w _
      (shapeUpdate_struct_returns ms update w hop hst hret)).2, h]
    exact hw _
  · intro h
    simp only [Repository.DeleteOne, h]
    exact hw _
  · intro h
    simp only [Repository.DeleteByID, Repository.DeleteOne, h]
    exact hw _
  · intro h
    simp only [Repository.DeleteMany, h]
    exact hw _
  · intro h
    simp only [Repository.EstimatedCount, h]
    exact hw _
  · intro h
    simp only [Repository.CountDocuments, h]
    exact hw _
  · intro h
    simp only [Repository.Aggregate, h]
    exact hw _
  · intro cursor h1 h2
    simp only [Repository.Aggregate, h1, h2]
    exact hw _
  · intro h
    simp only [Repository.AggregateTyped, h]
    exact hw _
  · intro cursor h1 h2
    simp only [Repository.AggregateTyped, h1, h2]
    exact hw _
  · intro h
    simp only [Repository.Distinct, h]
    exact hw _
  · intro h
    simp only [Repository.BulkWrite, h]
    exact hw _
  · intro h
    simp only [Repository.Watch, h]
    exact hw _
  · intro h
    simp only [Repository.EnsureIndexes, h]
    exact hw _
  · intro declared hd h
    simp only [Repository.EnsureIndexesAssertType, hd, h]
    exact ⟨_, rfl, hw _⟩
  · intro h
    simp only [Repository.GetIndexes, h]
    exact hw _
  · intro cursor h1 h2
    simp only [Repository.GetIndexes, h1, h2]
    exact hw _
  · intro h
    simp only [Repository.Transaction, h]
    exact hw _
  · intro h
    simp only [Repository.FindOne, h]
  · intro h
    simp only [Repository.FindByID, Repository.FindOne, defaultFilter, h]
  · intro hop h
    rw [(FindOneAndUpdate_of_proceed ms r filter _ _ uopts w _
      (shapeUpdate_operator ms update w hop)).2, h]
    rfl
  · intro hop hst hret h
    rw [(FindOneAndUpdate_of_proceed ms r filter _ _ uopts w _
      (shapeUpdate_struct_returns ms update w hop hst hret)).2, h]
    rfl
  · intro hop h
    unfold Repository.FindOneAndUpdateByID
    rw [(FindOneAndUpdate_of_proceed ms r _ _ _ uopts w _
      (shapeUpdate_operator ms update w hop)).2, h]
    rfl
  · intro hop hst hret h
    unfold Repository.FindOneAndUpdateByID
    rw [(FindOneAndUpdate_of_proceed ms r _ _ _ uopts w _
      (shapeUpdate_struct_returns ms update w hop hst hret)).2, h]
    rfl
  · intro h
    simp only [Repository.FindOneAndDelete, h]

/-- Witness for C9: a store that fails every call with "connection reset". -/
theorem store_errors_are_wrapped_witness :
    (runBeforeInsert baseFieldParam (.addr 0) (initWorld BaseField)).1 = true ∧
    failingRepo.collection.InsertOne
        (runBeforeInsert baseFieldParam (.addr 0) (initWorld BaseField)).2.trace
        ((runBeforeInsert baseFieldParam (.addr 0) (initWorld BaseField)).2.deref
          (.addr 0)) [] =
      .error (GoError.driver "connection reset") ∧
    Wraps "failed to insert document" (GoError.driver "connection reset")
      (failingRepo.InsertOne baseFieldParam (.addr 0) []
        (initWorld BaseField)).1.error ∧
    Wraps "failed to execute find" (GoError.driver "connection reset")
      (failingRepo.Find (.M []) [] (initWorld BaseField)).1.2 :=
  ⟨rfl, rfl,
    (store_errors_are_wrapped baseFieldParam baseFieldMethods failingRepo
      (initWorld BaseField) (GoError.driver "connection reset") (.addr 0) .nil
      (.M []) .nil .nil .nil [] [] [] 1 1 "" [] [] (fun w => (none, w))).1 rfl rfl,
    (store_errors_are_wrapped baseFieldParam baseFieldMethods failingRepo
      (initWorld BaseField) (GoError.driver "connection reset") (.addr 0) .nil
      (.M []) .nil .nil .nil [] [] [] 1 1 "" [] [] (fun w => (none, w))).2.2.2.1 rfl⟩

/-! ## Timestamps at insertion -/

/-- C10 (amended): for every `BaseField` value and every behaviour of the clock,
`BeforeInsert` leaves `CreatedAt` equal to the first reading of the clock it
takes and `UpdatedAt` equal to the second; the two timestamps are equal exactly
when the clock returns the same instant at both readings.  `InsertOne` runs the
hook first and then hands the store the document as the hook left it. -/
theorem BeforeInsert_takes_two_readings (r : Repository BaseField) (b : BaseField)
    (a : Nat) (opts : Opts) (w : World BaseField) :
    (b.BeforeInsert w.env).1.CreatedAt = w.env.clock w.env.ticks ∧
      (b.BeforeInsert w.env).1.UpdatedAt = w.env.clock (w.env.ticks + 1) ∧
      ((b.BeforeInsert w.env).1.CreatedAt = (b.BeforeInsert w.env).1.UpdatedAt ↔
        w.env.clock w.env.ticks = w.env.clock (w.env.ticks + 1)) ∧
      ∃ rest, (r.InsertOne baseFieldParam (.addr a) opts w).2.trace =
        w.trace ++ [Event.BeforeInsert (.addr a),
          Event.call (Call.InsertOne (.addr a)
            (some ((w.heap a).BeforeInsert w.env).1) opts)] ++ rest := by
  have hc : (b.BeforeInsert w.env).1.CreatedAt = w.env.clock w.env.ticks := by
    unfold BaseField.BeforeInsert BaseField.DefaultUpdatedAt BaseField.DefaultCreatedAt
      BaseField.DefaultID
    by_cases hz : b.ID = 0 <;> simp [hz, timeNow, NewObjectID]
  have hu : (b.BeforeInsert w.env).1.UpdatedAt = w.env.clock (w.env.ticks + 1) := by
    unfold BaseField.BeforeInsert BaseField.DefaultUpdatedAt BaseField.DefaultCreatedAt
      BaseField.DefaultID
    by_cases hz : b.ID = 0 <;> simp [hz, timeNow, NewObjectID]
  refine ⟨hc, hu, by rw [hc, hu], ?_⟩
  have hrun : runBeforeInsert baseFieldParam (.addr a) w =
      (true, { trace := w.trace ++ [Event.BeforeInsert (.addr a)],
               env := ((w.heap a).BeforeInsert w.env).2,
               heap := Function.update w.heap a ((w.heap a).BeforeInsert w.env).1 }) := rfl
  simp only [Repository.InsertOne, hrun, World.emit, World.deref, Function.update_same]
  split
  · exact ⟨[], by simp⟩
  · rename_i _ insertedID _
    split <;>
      exact ⟨[Event.call (Call.FindOne (.M [("_id", insertedID)]) [])], by simp⟩

/-- C10 as stated fails: with a clock that advances between two readings, the
hook leaves a fresh document with `CreatedAt = 0` and `UpdatedAt = 1`, and that is
the document `InsertOne` hands the store. -/
theorem BeforeInsert_timestamps_differ :
    (freshDoc.BeforeInsert tickingEnv).1 = ⟨1, 0, 1⟩ ∧
    ¬ (freshDoc.BeforeInsert tickingEnv).1.CreatedAt =
      (freshDoc.BeforeInsert tickingEnv).1.UpdatedAt ∧
    (okRepo.InsertOne baseFieldParam (.addr 0) [] (initWorld BaseField)).2.trace =
      [Event.BeforeInsert (.addr 0),
        Event.call (Call.InsertOne (.addr 0) (some ⟨1, 0, 1⟩) []),
        Event.call (Call.FindOne (.M [("_id", .int 1)]) [])] :=
  ⟨rfl, by decide, rfl⟩

/-! ## The return-document option -/

/-- Left alone, the merge honours a caller who asks for the pre-update document. -/
theorem merge_of_caller_options_alone :
    (mergeFindOneAndUpdateOptions beforeOpts).ReturnDocument = some .Before ∧
    (mergeFindOneAndUpdateOptions beforeOpts).Upsert = some true :=
  ⟨rfl, rfl⟩

theorem merge_then_After (uopts : List FindOneAndUpdateOptions) :
    (mergeFindOneAndUpdateOptions
      (uopts ++ [[FindOneAndUpdateSetter.SetReturnDocument .After]])).ReturnDocument =
      some .After := by
  simp [mergeFindOneAndUpdateOptions, List.foldl_append, FindOneAndUpdateSetter.apply]

theorem isStructOrPtrToStruct_of_isDocument {update : Value}
    (h : update.isDocument = true) :
    (∃ ty tag, update = .struct ty tag) ∨ (∃ ty p, update = .ptr (.struct ty) p) := by
  cases update with
  | struct ty tag => exact Or.inl ⟨ty, tag, rfl⟩
  | ptr elem p =>
    cases elem with
    | struct ty => exact Or.inr ⟨ty, p, rfl⟩
    | _ => simp [Value.isDocument] at h
  | _ => simp [Value.isDocument] at h

/-- C11: for every caller-supplied option list, whenever `FindOneAndUpdate`
reaches the store (the update is an operator document, or a struct or pointer to
a struct whose hook, if it has one, returns) it issues one store call whose
options are the caller's, in their original order, followed by a final
`ReturnDocument = After` builder, and nothing but hook invocations precedes that
call.  An update it rejects never reaches the store, the world being left as it
was, and neither does one whose hook panics, the trace then ending with the hook
invocation.  Merged in order with the last setter winning, the forwarded options
always give the return-document setting `After`, whatever the caller asked
for. -/
theorem FindOneAndUpdate_appends_After {S : Type} (ms : Methods S) (r : Repository S)
    (filter update : Value) (uopts : List FindOneAndUpdateOptions) (w : World S) :
    (isMongoOperator update = true ∨
          (isStructOrPtrToStruct update = true ∧
            (update.isDocument = true →
              (ms.BeforeUpdate update w.heap w.env).returned = true)) →
        ∃ hooks shaped,
          (r.FindOneAndUpdate ms filter update uopts w).2.trace =
            w.trace ++ hooks ++
              [Event.call (Call.FindOneAndUpdate filter shaped
                (uopts ++ [[FindOneAndUpdateSetter.SetReturnDocument .After]]))] ∧
          storeCalls hooks = []) ∧
      (isMongoOperator update = false → isStructOrPtrToStruct update = false →
        (r.FindOneAndUpdate ms filter update uopts w).2 = w) ∧
      (update.isDocument = true →
        (ms.BeforeUpdate update w.heap w.env).returned = false →
        (r.FindOneAndUpdate ms filter update uopts w).2.trace =
          w.trace ++ [Event.BeforeUpdate update]) ∧
      (mergeFindOneAndUpdateOptions
        (uopts ++ [[FindOneAndUpdateSetter.SetReturnDocument .After]])).ReturnDocument =
        some .After := by
  refine ⟨?_, ?_, ?_, merge_then_After uopts⟩
  · intro h
    cases hop : isMongoOperator update with
    | true =>
      refine ⟨[], update, ?_, rfl⟩
      rw [(FindOneAndUpdate_of_proceed ms r filter _ _ uopts w _
        (shapeUpdate_operator ms update w hop)).1]
      simp [World.emit]
    | false =>
      have hst : isStructOrPtrToStruct update = true ∧
          (update.isDocument = true →
            (ms.BeforeUpdate update w.heap w.env).returned = true) := by
        rcases h with h | h
        · rw [hop] at h; exact absurd h (by decide)
        · exact h
      refine ⟨if update.isDocument then [Event.BeforeUpdate update] else [],
        .M [("$set", update)], ?_, ?_⟩
      · rw [(FindOneAndUpdate_of_proceed ms r filter _ _ uopts w _
          (shapeUpdate_struct_returns ms update w hop hst.1
            (runBeforeUpdate_returns ms update w hst.2))).1]
        simp [World.emit, runBeforeUpdate_trace]
      · cases hd : update.isDocument <;> simp [storeCalls, Event.isCall]
  · intro hop hst
    rw [(update_of_reject ms r filter update [] uopts w _
      (shapeUpdate_unsupported ms update w hop hst)).2.2]
  · intro hd hpanic
    have hs := isStructOrPtrToStruct_of_isDocument hd
    rw [(update_of_panic ms r filter update [] uopts w _
      (shapeUpdate_struct_panics ms update w (isMongoOperator_of_struct hs)
        (isStructOrPtrToStruct_of_struct hs)
        (runBeforeUpdate_panics ms update w hd hpanic))).2.2,
      runBeforeUpdate_trace, hd]
    rfl

/-- Witness for C11: the caller asks for the pre-update document; the store
still receives `ReturnDocument = After` last, and the merge gives `After`. -/
theorem FindOneAndUpdate_appends_After_witness :
    (okRepo.FindOneAndUpdate baseFieldMethods (.M [])
        (.M [("$inc", Value.M [("n", Value.int 1)])]) beforeOpts
        (initWorld BaseField)).2.trace =
      [Event.call (Call.FindOneAndUpdate (.M [])
        (.M [("$inc", Value.M [("n", Value.int 1)])])
        [[.SetUpsert true], [.SetReturnDocument .Before],
          [.SetReturnDocument .After]])] ∧
    (∃ hooks shaped,
      (okRepo.FindOneAndUpdate baseFieldMethods (.M [])
          (.M [("$inc", Value.M [("n", Value.int 1)])]) beforeOpts
          (initWorld BaseField)).2.trace =
        (initWorld BaseField).trace ++ hooks ++
          [Event.call (Call.FindOneAndUpdate (.M []) shaped
            (beforeOpts ++ [[FindOneAndUpdateSetter.SetReturnDocument .After]]))] ∧
      storeCalls hooks = []) ∧
    (mergeFindOneAndUpdateOptions
      (beforeOpts ++ [[FindOneAndUpdateSetter.SetReturnDocument .After]])).ReturnDocument =
      some .After :=
  ⟨rfl,
    (FindOneAndUpdate_appends_After baseFieldMethods okRepo (.M [])
      (.M [("$inc", Value.M [("n", Value.int 1)])]) beforeOpts
      (initWorld BaseField)).1 (Or.inl rfl),
    (FindOneAndUpdate_appends_After baseFieldMethods okRepo (.M [])
      (.M [("$inc", Value.M [("n", Value.int 1)])]) beforeOpts
      (initWorld BaseField)).2.2.2⟩
end Mongoclient
